import Mathlib

/-!
Verification development for the IoTNetworkOptimization_PI provider
implementation (CAMARA IoT Network Optimization API).

The definitions below are a shallow embedding of the Go sources:

* `internal/database/database.go` — the data model (`Transaction`,
  `TransactionDevice`, `DeviceActionStatus`, `DeviceOriginalState`);
* the MongoDB-backed store (`mongodb.go`): `CreateTransaction`,
  `ClaimTransaction`, `UpdateDeviceActionStatus`,
  `MarkTransactionCompleted`, `MarkTransactionFailed`,
  `StoreDeviceOriginalState`, `GetDeviceOriginalState`;
* `internal/scheduler/scheduler.go`: `handleScheduleRequested`,
  `handleAllDevicesCompleted`, `loadPendingSchedules`, `fireSchedule`,
  `sendErrorNotification`;
* the worker (`worker.go`): `processDevice`,
  `markTransactionCompleteIfDone`;
* the time-validation block of `ActivatePowerSaving` in the API handler.

MongoDB documents are modelled as Lean structures; the two collections as
lists keyed by their `_id` field.  A conditional `UpdateOne` is modelled as
an atomic test-then-set on the matched document; `FindOneAndUpdate` with
`ReturnDocument(After)` returns the post-image.  Timestamps are `Int`
instants (`time.Before` is `<`).  The CloudEvents sender and the NEF
(easyapi) client are modelled as effect logs plus an outcome oracle,
since their transport is out of scope.
-/

namespace IoTNetOpt

/-- Transaction lifecycle status, from `database.go` (`StatusPending`,
`StatusProcessing`, `StatusCompleted`, `StatusFailed`). -/
inductive Status
  | pending
  | processing
  | completed
  | failed
deriving DecidableEq, Repr

/-- `models.Device`: only the identifier fields that the pipeline reads.
`networkAccessIdentifier` is the canonical device key; a `none` value is the
Go `nil` pointer. -/
structure Device where
  networkAccessIdentifier : Option String
  phoneNumber : Option String
deriving DecidableEq, Repr

/-- `models.SubscriptionRequest`: the callback sink URL is the only field the
scheduler and worker read (`sendErrorNotification` checks `Sink == ""`). -/
structure SubscriptionRequest where
  sink : String
deriving DecidableEq, Repr

/-- `database.DeviceActionStatus`: status string ("pending", "in-progress",
"success", "failed") plus a timestamp. -/
structure DeviceActionStatus where
  status : String
  timestamp : Int
deriving DecidableEq, Repr

/-- `database.TransactionDevice`: one embedded device of a transaction. -/
structure TransactionDevice where
  deviceId : String
  device : Device
  startAction : Option DeviceActionStatus
  endAction : Option DeviceActionStatus
deriving DecidableEq, Repr

/-- `database.Transaction`: the transaction document (`_id` is
`transactionId`). -/
structure Transaction where
  transactionId : String
  startAt : Int
  endAt : Option Int
  enabled : Bool
  subscriptionRequest : SubscriptionRequest
  status : Status
  createdAt : Int
  updatedAt : Int
  errorMessage : String
  devices : List TransactionDevice
  startActionCompleted : Bool
  endActionCompleted : Bool
  startActionNotified : Bool
  endActionNotified : Bool
deriving DecidableEq, Repr

/-- `database.DeviceOriginalState`: captured original device configuration,
keyed by `deviceId` in the `device_configs` collection. -/
structure DeviceOriginalState where
  deviceId : String
  ppMaximumLatency : String
  ppMaximumResponseTime : String
  timestamp : Int
deriving DecidableEq, Repr

/-- `easyapi.DeviceConfig`: the pair of communication characteristics read
from and written to the NEF. -/
structure DeviceConfig where
  ppMaximumLatency : String
  ppMaximumResponseTime : String
deriving DecidableEq, Repr

/-- The shared MongoDB database: the `transactions` and `device_configs`
collections. -/
structure DB where
  transactions : List Transaction
  deviceConfigs : List DeviceOriginalState
deriving DecidableEq, Repr

/-- Find a transaction by `_id` (`FindOne` with filter on `_id`). -/
def findTxL (l : List Transaction) (txId : String) : Option Transaction :=
  l.find? (fun t => t.transactionId == txId)

/-- Replace every document whose `_id` matches the replacement's `_id`
(`_id` is unique in MongoDB, so at most one document is affected). -/
def replaceTxL (l : List Transaction) (t : Transaction) : List Transaction :=
  l.map (fun u => if u.transactionId == t.transactionId then t else u)

/-- Find a transaction by `_id` in the database. -/
def DB.findTx (db : DB) (txId : String) : Option Transaction :=
  findTxL db.transactions txId

/-- Write back one updated transaction document. -/
def DB.replaceTx (db : DB) (t : Transaction) : DB :=
  { db with transactions := replaceTxL db.transactions t }

/-- MongoDB `_id` uniqueness: the transaction ids are pairwise distinct.
This always holds for a real collection (unique index on `_id`). -/
def DB.wf (db : DB) : Prop :=
  (db.transactions.map (fun t => t.transactionId)).Nodup

/-- `CreateTransaction` (mongodb.go): stamp `createdAt`/`updatedAt` and
`InsertOne` the document; MongoDB rejects a duplicate `_id` with a
duplicate-key error. -/
def createTransaction (db : DB) (t : Transaction) (now : Int) :
    DB × Except String Unit :=
  match db.findTx t.transactionId with
  | some _ => (db, .error "duplicate key error")
  | none =>
      ({ db with transactions :=
          db.transactions ++ [{ t with createdAt := now, updatedAt := now }] },
       .ok ())

/-- The claim filter of `ClaimTransaction` (mongodb.go): `_id` equality plus,
for the start (resp. end) action, `startActionCompleted` (resp.
`endActionCompleted`) `$ne true`.  Note there is no condition on `status`. -/
def claimFilter (t : Transaction) (txId action : String) : Bool :=
  (t.transactionId == txId) &&
    (if action == "start" then !t.startActionCompleted
     else if action == "end" then !t.endActionCompleted
     else true)

/-- `ClaimTransaction` (mongodb.go): `UpdateOne` setting `updatedAt` under
`claimFilter`; on `MatchedCount = 0` fetch by `_id` to distinguish
"not found" (error) from "already completed" (`false`, no error). -/
def claimTransaction (db : DB) (txId action : String) (now : Int) :
    DB × Except String Bool :=
  match db.transactions.find? (fun t => claimFilter t txId action) with
  | some t => (db.replaceTx { t with updatedAt := now }, .ok true)
  | none =>
      match db.findTx txId with
      | none => (db, .error ("transaction not found: " ++ txId))
      | some _ => (db, .ok false)

/-- `MarkTransactionFailed` (mongodb.go). -/
def markTransactionFailed (db : DB) (txId errorMsg : String) (now : Int) : DB :=
  match db.findTx txId with
  | none => db
  | some t =>
      db.replaceTx { t with status := .failed, errorMessage := errorMsg, updatedAt := now }

/-- `MarkTransactionCompleted` (mongodb.go). -/
def markTransactionCompleted (db : DB) (txId : String) (now : Int) : DB :=
  match db.findTx txId with
  | none => db
  | some t => db.replaceTx { t with status := .completed, updatedAt := now }

/-- `StoreDeviceOriginalState` (mongodb.go): stamp `deviceId`/`timestamp` and
`ReplaceOne` with upsert on `_id = deviceId`. -/
def storeDeviceOriginalState (db : DB) (devId : String)
    (st : DeviceOriginalState) (now : Int) : DB :=
  let st' := { st with deviceId := devId, timestamp := now }
  if (db.deviceConfigs.find? (fun c => c.deviceId == devId)).isSome then
    { db with deviceConfigs :=
        db.deviceConfigs.map (fun c => if c.deviceId == devId then st' else c) }
  else
    { db with deviceConfigs := db.deviceConfigs ++ [st'] }

/-- `GetDeviceOriginalState` (mongodb.go): `FindOne` on `_id = deviceId`;
`none` is `mongo.ErrNoDocuments`. -/
def getDeviceOriginalState (db : DB) (devId : String) : Option DeviceOriginalState :=
  db.deviceConfigs.find? (fun c => c.deviceId == devId)

/-- Terminal device-action statuses, as tested in `UpdateDeviceActionStatus`:
`status == "success" || status == "failed"`. -/
def isTerminal (s : String) : Bool :=
  s == "success" || s == "failed"

/-- The action-status field read by the completion count of
`UpdateDeviceActionStatus`: `StartAction` when `action == "start"`, else
`EndAction`. -/
def countedAction (d : TransactionDevice) (action : String) :
    Option DeviceActionStatus :=
  if action == "start" then d.startAction else d.endAction

/-- Whether one device counts as completed in `UpdateDeviceActionStatus`:
its counted action status exists and is terminal. -/
def deviceTerminal (d : TransactionDevice) (action : String) : Bool :=
  match countedAction d action with
  | some a => isTerminal a.status
  | none => false

/-- Number of devices whose counted action status is terminal
(`completedCount` loop of `UpdateDeviceActionStatus`). -/
def completedCount (devs : List TransactionDevice) (action : String) : Nat :=
  devs.countP (fun d => deviceTerminal d action)

/-- Update the first element satisfying the predicate (MongoDB positional
`$` operator updates the first matched array element). -/
def updateFirst (l : List α) (p : α → Bool) (f : α → α) : List α :=
  match l with
  | [] => []
  | a :: as => if p a then f a :: as else a :: updateFirst as p f

/-- The action-status field written by `UpdateDeviceActionStatus`:
`devices.$.endAction` when `action == "end"`, else `devices.$.startAction`. -/
def TransactionDevice.setAction (d : TransactionDevice) (action : String)
    (st : DeviceActionStatus) : TransactionDevice :=
  if action == "end" then { d with endAction := some st }
  else { d with startAction := some st }

/-- The positional `$set` of `UpdateDeviceActionStatus`: write the action
status of the first device matching `deviceId`, and stamp `updatedAt`. -/
def Transaction.setDeviceAction (t : Transaction) (devId action status : String)
    (now : Int) : Transaction :=
  { t with
    devices := updateFirst t.devices (fun d => d.deviceId == devId)
      (fun d => d.setAction action { status := status, timestamp := now }),
    updatedAt := now }

/-- The notified flag selected by `UpdateDeviceActionStatus`:
`endActionNotified` when `action == "end"`, else `startActionNotified`. -/
def Transaction.notifiedFlag (t : Transaction) (action : String) : Bool :=
  if action == "end" then t.endActionNotified else t.startActionNotified

/-- The `$set` of the notification election: set the selected notified flag
true and stamp `updatedAt`. -/
def Transaction.setNotifiedTrue (t : Transaction) (action : String)
    (now : Int) : Transaction :=
  if action == "end" then { t with endActionNotified := true, updatedAt := now }
  else { t with startActionNotified := true, updatedAt := now }

/-- The notified flag of a transaction in the database (`false` when the
transaction does not exist, in which case the election filter matches
nothing). -/
def DB.notified (db : DB) (txId action : String) : Bool :=
  match db.findTx txId with
  | some t => t.notifiedFlag action
  | none => false

/-- `UpdateDeviceActionStatus` (mongodb.go): `FindOneAndUpdate` with filter
`_id = txId` and `devices.deviceId = devId`, positional `$set` of the action
status, returning the post-image; then count terminal devices; when every
device is terminal (and there is at least one device), run the election
`UpdateOne` with filter on the notified flag being `false`, setting it true;
the result is `MatchedCount == 1`. -/
def updateDeviceActionStatus (db : DB) (txId devId action status : String)
    (now : Int) : DB × Except String Bool :=
  match db.findTx txId with
  | none => (db, .error "mongo: no documents in result")
  | some t =>
    match t.devices.find? (fun d => d.deviceId == devId) with
    | none => (db, .error "mongo: no documents in result")
    | some _ =>
      let t1 := t.setDeviceAction devId action status now
      let db1 := db.replaceTx t1
      let totalDevices := t1.devices.length
      let completed := completedCount t1.devices action
      if completed = totalDevices ∧ 0 < totalDevices then
        if t1.notifiedFlag action = false then
          (db1.replaceTx (t1.setNotifiedTrue action now), .ok true)
        else (db1, .ok false)
      else (db1, .ok false)

/-- The `allCompleted` boolean the Go caller receives: `false` on every error
path (`return false, err`). -/
def resultBool (r : Except String Bool) : Bool :=
  match r with
  | .ok b => b
  | .error _ => false

/-- Whether an `Except String Unit` result is the success value. -/
def isOkU (r : Except String Unit) : Bool :=
  match r with
  | .ok _ => true
  | .error _ => false

/-- Observable side effects of the scheduler, worker and notifier: armed
timers and published CloudEvents. -/
inductive Effect
  | armTimer (key : String) (txId : String) (action : String) (delay : Int)
  | sendActuation (id : String) (device : Device) (enabled : Bool)
      (txId : String) (action : String)
  | sendAllCompleted (id : String) (txId : String) (action : String)
      (completedAt : Int)
  | sendError (id : String) (txId : String) (action : String)
      (code : String) (message : String)
deriving DecidableEq, Repr

/-- `sendErrorNotification` (scheduler.go): skip when no sink is configured,
otherwise publish a `PowerSavingError` event with id
`<transactionId>-<action>-error`. -/
def sendErrorNotification (txId action code message : String)
    (sub : SubscriptionRequest) : List Effect :=
  if sub.sink == "" then []
  else [Effect.sendError (txId ++ "-" ++ action ++ "-error") txId action code message]

/-- Clamp a timer delay to zero when the instant lies in the past
(`if delay < 0 then delay = 0`). -/
def clampDelay (d : Int) : Int :=
  if d < 0 then 0 else d

/-- Payload of a `ScheduleRequested` event (`event.ScheduleRequestedData`). -/
structure ScheduleRequestedData where
  startAt : Int
  endAt : Option Int
  devices : List Device
  enabled : Bool
  transactionId : String
  subscriptionRequest : SubscriptionRequest
deriving DecidableEq, Repr

/-- The device-list construction of `handleScheduleRequested`: a requested
device whose `NetworkAccessIdentifier` is `nil` is logged and skipped; every
other device gets `startAction = pending`. -/
def buildTransactionDevices (devices : List Device) (now : Int) :
    List TransactionDevice :=
  devices.filterMap (fun dev =>
    match dev.networkAccessIdentifier with
    | none => none
    | some nai =>
        some { deviceId := nai, device := dev,
               startAction := some { status := "pending", timestamp := now },
               endAction := none })

/-- `handleScheduleRequested` (scheduler.go): build the transaction row with
`status = Pending`, insert it (any insert error triggers a `PowerSavingError`
notification and an error return), then arm a start timer with the delay
until `startAt` clamped to zero. -/
def handleScheduleRequested (db : DB) (d : ScheduleRequestedData) (now : Int) :
    DB × List Effect × Except String Unit :=
  let devices := buildTransactionDevices d.devices now
  let t : Transaction :=
    { transactionId := d.transactionId, startAt := d.startAt, endAt := d.endAt,
      enabled := d.enabled, subscriptionRequest := d.subscriptionRequest,
      status := .pending, createdAt := 0, updatedAt := 0, errorMessage := "",
      devices := devices, startActionCompleted := false,
      endActionCompleted := false, startActionNotified := false,
      endActionNotified := false }
  let c := createTransaction db t now
  match c.2 with
  | .error e =>
      (c.1, sendErrorNotification d.transactionId "start" "INTERNAL_ERROR"
              "Failed to create transaction in database" d.subscriptionRequest,
       .error ("create transaction: " ++ e))
  | .ok _ =>
      (c.1, [Effect.armTimer (d.transactionId ++ "-start") d.transactionId
               "start" (clampDelay (d.startAt - now))],
       .ok ())

/-- Payload of an `AllDevicesCompleted` event
(`event.AllDevicesCompletedData`). -/
structure AllDevicesCompletedData where
  transactionId : String
  action : String
  completedAt : Int
  subscriptionRequest : SubscriptionRequest
deriving DecidableEq, Repr

/-- `handleAllDevicesCompleted` (scheduler.go): ignore non-start completions;
load the transaction (error when missing); when `endAt` is defined arm the
end timer with the delay until `endAt` clamped to zero. -/
def handleAllDevicesCompleted (db : DB) (d : AllDevicesCompletedData)
    (now : Int) : DB × List Effect × Except String Unit :=
  if d.action == "start" then
    match db.findTx d.transactionId with
    | none => (db, [], .error "get transaction")
    | some t =>
      match t.endAt with
      | none => (db, [], .ok ())
      | some e =>
          (db, [Effect.armTimer (d.transactionId ++ "-end") d.transactionId
                  "end" (clampDelay (e - now))],
           .ok ())
  else (db, [], .ok ())

/-- `GetPendingTransactions` (mongodb.go): all transactions with status in
`[Pending, Processing]`. -/
def pendingTransactions (db : DB) : List Transaction :=
  db.transactions.filter (fun t => t.status == .pending || t.status == .processing)

/-- The timers `loadPendingSchedules` arms for one recovered transaction: a
start timer when `startActionCompleted = false`; an end timer when
`endAt ≠ null ∧ startActionCompleted = true ∧ endActionCompleted = false`;
delays clamped to zero when in the past. -/
def armForTransaction (t : Transaction) (now : Int) : List Effect :=
  (if !t.startActionCompleted then
    [Effect.armTimer (t.transactionId ++ "-start") t.transactionId "start"
      (clampDelay (t.startAt - now))]
   else []) ++
  (match t.endAt with
   | some e =>
       if t.startActionCompleted && !t.endActionCompleted then
         [Effect.armTimer (t.transactionId ++ "-end") t.transactionId "end"
           (clampDelay (e - now))]
       else []
   | none => [])

/-- `loadPendingSchedules` (scheduler.go): iterate the pending transactions
on startup and arm their timers. -/
def loadPendingSchedules (db : DB) (now : Int) : List Effect :=
  (pendingTransactions db).flatMap (fun t => armForTransaction t now)

/-- A fired `scheduleAction` from the timer queue (scheduler.go). -/
structure ScheduleAction where
  transactionId : String
  action : String
  subscriptionRequest : SubscriptionRequest
deriving DecidableEq, Repr

/-- `fireSchedule` (scheduler.go): atomically claim the (transaction, action)
pair; on claim error, publish a `PowerSavingError` and fail; when not claimed,
silently drop; otherwise read the row back and publish one
`DeviceActuationRequest` per device with id
`<transactionId>-<action>-device-<index>`, `enabled` inverted for the end
action. -/
def fireSchedule (db : DB) (a : ScheduleAction) (now : Int) :
    DB × List Effect × Except String Unit :=
  let c := claimTransaction db a.transactionId a.action now
  match c.2 with
  | .error e =>
      (c.1, sendErrorNotification a.transactionId a.action "INTERNAL_ERROR"
              "Failed to claim transaction in database" a.subscriptionRequest,
       .error ("claim transaction: " ++ e))
  | .ok false => (c.1, [], .ok ())
  | .ok true =>
      match c.1.findTx a.transactionId with
      | none =>
          let db2 := markTransactionFailed c.1 a.transactionId
            "failed to retrieve transaction data" now
          (db2, sendErrorNotification a.transactionId a.action "INTERNAL_ERROR"
                  "Failed to retrieve transaction data from database"
                  a.subscriptionRequest,
           .error "get transaction")
      | some t =>
          let enabledValue := if a.action == "end" then !t.enabled else t.enabled
          (c.1,
           t.devices.enum.map (fun p =>
             Effect.sendActuation
               (a.transactionId ++ "-" ++ a.action ++ "-device-" ++ toString p.1)
               p.2.device enabledValue a.transactionId a.action),
           .ok ())

/-- `markTransactionCompleteIfDone` (worker.go): load the row; complete it
when the start action finished and no end is scheduled, or when the end
action finished. -/
def markTransactionCompleteIfDone (db : DB) (txId action : String) (now : Int) :
    DB × Except String Unit :=
  match db.findTx txId with
  | none => (db, .error "get transaction")
  | some t =>
      let shouldComplete :=
        (action == "start" && t.endAt.isNone) || action == "end"
      if shouldComplete then (markTransactionCompleted db txId now, .ok ())
      else (db, .ok ())

/-- One NEF (easyapi) client call made by the worker. -/
inductive NefCall
  | getDeviceConfig (deviceId : String)
  | setDeviceConfig (deviceId : String) (config : DeviceConfig)
deriving DecidableEq, Repr

/-- Whether a NEF call is a `SetDeviceConfig` write. -/
def NefCall.isSet (c : NefCall) : Bool :=
  match c with
  | .setDeviceConfig _ _ => true
  | .getDeviceConfig _ => false

/-- Outcome oracle for the worker's external calls plus its configured
power-saving pair (`config.PowerSaving`): `nefGet = none` means
`GetDeviceConfig` fails; `storeOk`/`nefSetOk` are the outcomes of
`StoreDeviceOriginalState` and `SetDeviceConfig` if called. -/
structure WorkerEnv where
  nefGet : Option DeviceConfig
  storeOk : Bool
  nefSetOk : Bool
  psMaxLatency : String
  psMaxResponseTime : String
deriving DecidableEq, Repr

/-- The worker's configured power-saving configuration pair. -/
def WorkerEnv.psConfig (env : WorkerEnv) : DeviceConfig :=
  { ppMaximumLatency := env.psMaxLatency,
    ppMaximumResponseTime := env.psMaxResponseTime }

/-- The 2x2 action/enabled table of `processDevice` (worker.go, the block
between the two `UpdateDeviceActionStatus` calls): returns the updated
database, the NEF calls made, and the `finalStatus` string. -/
def applyPhase (env : WorkerEnv) (db : DB) (devId action : String)
    (enabled : Bool) (now : Int) : DB × List NefCall × String :=
  if action == "start" then
    if enabled then
      match env.nefGet with
      | none => (db, [NefCall.getDeviceConfig devId], "failed")
      | some currentConfig =>
          if env.storeOk then
            let db1 := storeDeviceOriginalState db devId
              { deviceId := devId,
                ppMaximumLatency := currentConfig.ppMaximumLatency,
                ppMaximumResponseTime := currentConfig.ppMaximumResponseTime,
                timestamp := 0 } now
            (db1,
             [NefCall.getDeviceConfig devId,
              NefCall.setDeviceConfig devId env.psConfig],
             if env.nefSetOk then "success" else "failed")
          else (db, [NefCall.getDeviceConfig devId], "failed")
    else
      match getDeviceOriginalState db devId with
      | none => (db, [], "failed")
      | some storedState =>
          (db,
           [NefCall.setDeviceConfig devId
             { ppMaximumLatency := storedState.ppMaximumLatency,
               ppMaximumResponseTime := storedState.ppMaximumResponseTime }],
           if env.nefSetOk then "success" else "failed")
  else if action == "end" then
    if enabled then
      match getDeviceOriginalState db devId with
      | none => (db, [], "failed")
      | some storedState =>
          (db,
           [NefCall.setDeviceConfig devId
             { ppMaximumLatency := storedState.ppMaximumLatency,
               ppMaximumResponseTime := storedState.ppMaximumResponseTime }],
           if env.nefSetOk then "success" else "failed")
    else
      (db, [NefCall.setDeviceConfig devId env.psConfig],
       if env.nefSetOk then "success" else "failed")
  else (db, [], "success")

/-- Result of one `processDevice` execution: final database, NEF calls in
order, published events, and the handler's error result. -/
structure ProcOut where
  db : DB
  nefCalls : List NefCall
  effects : List Effect
  res : Except String Unit
deriving Repr

/-- `processDevice` (worker.go): mark the device `in-progress`, run the 2x2
table, record the final status via `UpdateDeviceActionStatus`, and — only
when that call elects this worker (`allComplete = true`) — publish
`AllDevicesCompleted` (id `<transactionId>-<action>-all-completed`) and run
`markTransactionCompleteIfDone` (whose error is only logged). -/
def processDevice (env : WorkerEnv) (db : DB) (txId devId action : String)
    (enabled : Bool) (now : Int) : ProcOut :=
  let u1 := updateDeviceActionStatus db txId devId action "in-progress" now
  match u1.2 with
  | .error e =>
      { db := u1.1, nefCalls := [], effects := [],
        res := .error ("update status to in-progress: " ++ e) }
  | .ok _ =>
      let r := applyPhase env u1.1 devId action enabled now
      let u2 := updateDeviceActionStatus r.1 txId devId action r.2.2 now
      match u2.2 with
      | .error e =>
          { db := u2.1, nefCalls := r.2.1, effects := [],
            res := .error ("update device status: " ++ e) }
      | .ok allComplete =>
          if allComplete then
            let ev := Effect.sendAllCompleted
              (txId ++ "-" ++ action ++ "-all-completed") txId action now
            let m := markTransactionCompleteIfDone u2.1 txId action now
            { db := m.1, nefCalls := r.2.1, effects := [ev], res := .ok () }
          else
            { db := u2.1, nefCalls := r.2.1, effects := [], res := .ok () }

/-- The status of one device's action field as stored in the database,
reading the same field that the positional update writes. -/
def DB.deviceActionStatus (db : DB) (txId devId action : String) :
    Option String :=
  match db.findTx txId with
  | none => none
  | some t =>
      match t.devices.find? (fun d => d.deviceId == devId) with
      | none => none
      | some d =>
          (if action == "end" then d.endAction else d.startAction).map
            (fun a => a.status)

/-- One call to `UpdateDeviceActionStatus`, for reasoning about arbitrary
interleavings of workers racing on the same transaction. -/
structure UpdateCall where
  txId : String
  devId : String
  action : String
  status : String
  now : Int
deriving DecidableEq, Repr

/-- Run a sequence of `UpdateDeviceActionStatus` calls and count how many of
them return `allCompleted = true` for the given (transaction, action) pair. -/
def countWins (db : DB) (calls : List UpdateCall) (txId action : String) : Nat :=
  match calls with
  | [] => 0
  | c :: cs =>
      (if c.txId == txId && c.action == action &&
          resultBool (updateDeviceActionStatus db c.txId c.devId c.action c.status c.now).2
        then 1 else 0) +
        countWins (updateDeviceActionStatus db c.txId c.devId c.action c.status c.now).1
          cs txId action

/-- Time period of a power-saving request (`req.TimePeriod`). -/
structure TimePeriod where
  startDate : Int
  endDate : Option Int
deriving DecidableEq, Repr

/-- Outcome of the time-validation block of `ActivatePowerSaving`: either a
400 rejection with an error code, or acceptance with the effective
`startAt`/`endAt`. -/
inductive TimeValidation
  | rejected (code : String) (message : String)
  | accepted (startAt : Int) (endAt : Option Int)
deriving DecidableEq, Repr

/-- The time-validation block of `ActivatePowerSaving` (api.go): with a time
period, require `endDate > startDate` when an end date is given, and reject
when both dates lie strictly in the past (`time.Before(now)`); without a time
period, execute immediately (`startAt = now`). -/
def validateTimePeriod (tp : Option TimePeriod) (now : Int) : TimeValidation :=
  match tp with
  | none => .accepted now none
  | some p =>
      match p.endDate with
      | some e =>
          if ¬ (p.startDate < e) then
            .rejected "INVALID_ARGUMENT" "endDate must be after startDate"
          else if p.startDate < now ∧ e < now then
            .rejected "INVALID_ARGUMENT" "both startDate and endDate are in the past"
          else .accepted p.startDate (some e)
      | none => .accepted p.startDate none

/-- The spec's claim filter, modelled from the spec's words for comparison
with the source's `claimFilter`: "conditionally update the transaction row
setting `updatedAt`, filtered on `status in [Pending, Processing]` and
`<action>ActionCompleted = false`". -/
def specClaimFilter (t : Transaction) (txId action : String) : Bool :=
  (t.transactionId == txId) &&
    (t.status == .pending || t.status == .processing) &&
    (if action == "start" then !t.startActionCompleted
     else if action == "end" then !t.endActionCompleted
     else true)

/-! ### Structural lemmas about the embedded store operations -/

theorem transactionId_setDeviceAction (t : Transaction)
    (devId action status : String) (now : Int) :
    (t.setDeviceAction devId action status now).transactionId = t.transactionId :=
  rfl

theorem transactionId_setNotifiedTrue (t : Transaction) (action : String)
    (now : Int) :
    (t.setNotifiedTrue action now).transactionId = t.transactionId := by
  unfold Transaction.setNotifiedTrue
  split <;> rfl

theorem devices_setNotifiedTrue (t : Transaction) (action : String) (now : Int) :
    (t.setNotifiedTrue action now).devices = t.devices := by
  unfold Transaction.setNotifiedTrue
  split <;> rfl

theorem notifiedFlag_setDeviceAction (t : Transaction)
    (devId action status a : String) (now : Int) :
    (t.setDeviceAction devId action status now).notifiedFlag a = t.notifiedFlag a := by
  unfold Transaction.notifiedFlag Transaction.setDeviceAction
  split <;> rfl

theorem notifiedFlag_setNotifiedTrue_self (t : Transaction) (action : String)
    (now : Int) :
    (t.setNotifiedTrue action now).notifiedFlag action = true := by
  unfold Transaction.notifiedFlag Transaction.setNotifiedTrue
  by_cases h : (action == "end") = true <;> simp [h]

theorem notifiedFlag_setNotifiedTrue_mono (t : Transaction) (action a : String)
    (now : Int) (h : t.notifiedFlag a = true) :
    (t.setNotifiedTrue action now).notifiedFlag a = true := by
  unfold Transaction.notifiedFlag Transaction.setNotifiedTrue at *
  by_cases h1 : (a == "end") = true <;> by_cases h2 : (action == "end") = true <;>
    simp [h1, h2] at * <;> exact h

theorem find?_map_eq_of_fix {α : Type} (l : List α) (g : α → α) (p : α → Bool)
    (h1 : ∀ a, p (g a) = p a) (h2 : ∀ a, p a = true → g a = a) :
    (l.map g).find? p = l.find? p := by
  induction l with
  | nil => rfl
  | cons u us ih =>
    rw [List.map_cons]
    cases hu : p u with
    | true =>
        rw [List.find?_cons_of_pos _ (by rw [h1]; exact hu),
            List.find?_cons_of_pos _ hu, h2 u hu]
    | false =>
        rw [List.find?_cons_of_neg _ (by rw [h1, hu]; simp),
            List.find?_cons_of_neg _ (by rw [hu]; simp)]
        exact ih

theorem find?_map_eq_some_of_repl {α : Type} (l : List α) (g : α → α)
    (p : α → Bool) (t t' : α)
    (h1 : ∀ a, p (g a) = p a) (h2 : ∀ a, p a = true → g a = t')
    (h : l.find? p = some t) :
    (l.map g).find? p = some t' := by
  induction l with
  | nil => simp at h
  | cons u us ih =>
    rw [List.map_cons]
    cases hu : p u with
    | true =>
        rw [List.find?_cons_of_pos _ (by rw [h1]; exact hu), h2 u hu]
    | false =>
        rw [List.find?_cons_of_neg _ (by rw [hu]; simp)] at h
        rw [List.find?_cons_of_neg _ (by rw [h1, hu]; simp)]
        exact ih h

theorem findTxL_replace_ne (l : List Transaction) (t' : Transaction)
    (txId : String) (h : ¬ txId = t'.transactionId) :
    findTxL (replaceTxL l t') txId = findTxL l txId := by
  unfold findTxL replaceTxL
  apply find?_map_eq_of_fix
  · intro a
    by_cases hq : a.transactionId = t'.transactionId
    · simp [hq]
    · simp [hq]
  · intro a ha
    have ha' : a.transactionId = txId := by simpa using ha
    have : (a.transactionId == t'.transactionId) = false := by
      simp [ha']
      exact h
    simp [this]

theorem findTxL_replace_self (l : List Transaction) (t t' : Transaction)
    (txId : String) (h : findTxL l txId = some t)
    (ht' : t'.transactionId = txId) :
    findTxL (replaceTxL l t') txId = some t' := by
  unfold findTxL replaceTxL at *
  apply find?_map_eq_some_of_repl _ _ _ t t' _ _ h
  · intro a
    by_cases hq : a.transactionId = t'.transactionId
    · simp [hq]
    · simp [hq]
  · intro a ha
    have ha' : a.transactionId = txId := by simpa using ha
    have : (a.transactionId == t'.transactionId) = true := by simp [ha', ht']
    simp [this]

theorem findTx_some_id (db : DB) (txId : String) (t : Transaction)
    (h : db.findTx txId = some t) : t.transactionId = txId := by
  have := List.find?_some h
  simpa using this

theorem findTxL_replace_none (l : List Transaction) (t' : Transaction)
    (txId : String) (h : findTxL l txId = none) :
    findTxL (replaceTxL l t') txId = none := by
  unfold findTxL replaceTxL at *
  rw [List.find?_eq_none] at *
  intro x hx
  obtain ⟨a, ha, rfl⟩ := List.mem_map.mp hx
  have hp := h a ha
  by_cases hq : a.transactionId = t'.transactionId
  · have : ¬ t'.transactionId = txId := by
      intro he
      exact hp (by simp [hq, he])
    simp [hq, this]
  · simpa [hq] using hp

theorem findTx_replaceTx (db : DB) (t' : Transaction) (txId : String) :
    (db.replaceTx t').findTx txId =
      match db.findTx txId with
      | none => none
      | some _ => if t'.transactionId = txId then some t' else db.findTx txId := by
  show findTxL (replaceTxL db.transactions t') txId = _
  cases hx : db.findTx txId with
  | none => simpa using findTxL_replace_none db.transactions t' txId hx
  | some u =>
      by_cases he : t'.transactionId = txId
      · simpa [he] using findTxL_replace_self db.transactions u t' txId hx he
      · have := findTxL_replace_ne db.transactions t' txId (fun hh => he hh.symm)
        simp only [he, if_false]
        exact this.trans hx

theorem notified_replaceTx (db : DB) (t' : Transaction) (txId action : String) :
    (db.replaceTx t').notified txId action =
      match db.findTx txId with
      | none => false
      | some u =>
          if t'.transactionId = txId then t'.notifiedFlag action
          else u.notifiedFlag action := by
  unfold DB.notified
  rw [findTx_replaceTx]
  cases hx : db.findTx txId with
  | none => rfl
  | some u => by_cases he : t'.transactionId = txId <;> simp [he]

theorem notifiedFlag_setNotifiedTrue_sel (t : Transaction) (action a : String)
    (now : Int) (h : (a == "end") = (action == "end")) :
    (t.setNotifiedTrue action now).notifiedFlag a = true := by
  unfold Transaction.notifiedFlag Transaction.setNotifiedTrue
  cases hx : (action == "end") with
  | true => rw [hx] at h; simp [h, hx]
  | false => rw [hx] at h; simp [h, hx]

theorem notifiedFlag_setNotifiedTrue_other (t : Transaction) (action a : String)
    (now : Int) (h : ¬ (a == "end") = (action == "end")) :
    (t.setNotifiedTrue action now).notifiedFlag a = t.notifiedFlag a := by
  unfold Transaction.notifiedFlag Transaction.setNotifiedTrue
  cases hx : (action == "end") with
  | true =>
      have ha : (a == "end") = false := by
        cases hy : (a == "end") with
        | true => exact absurd (hy.trans hx.symm) h
        | false => rfl
      simp [ha, hx]
  | false =>
      have ha : (a == "end") = true := by
        cases hy : (a == "end") with
        | true => rfl
        | false => exact absurd (hy.trans hx.symm) h
      simp [ha, hx]

theorem notified_after_update (db : DB) (txIdC devId actionC status : String)
    (now : Int) (txId action : String) :
    (updateDeviceActionStatus db txIdC devId actionC status now).1.notified txId action =
      (db.notified txId action ||
        (resultBool (updateDeviceActionStatus db txIdC devId actionC status now).2 &&
          ((txId == txIdC) && ((action == "end") == (actionC == "end"))))) := by
  unfold updateDeviceActionStatus
  cases hf : db.findTx txIdC with
  | none => simp [resultBool]
  | some t =>
    cases hd : t.devices.find? (fun d => d.deviceId == devId) with
    | none => simp only [hd]; simp [resultBool]
    | some d =>
      simp only [hd]
      have hid : t.transactionId = txIdC := findTx_some_id _ _ _ hf
      have hid1 : (t.setDeviceAction devId actionC status now).transactionId = txIdC := by
        rw [transactionId_setDeviceAction, hid]
      split_ifs with h1 h2
      · simp only [resultBool]
        rw [notified_replaceTx]
        rw [findTx_replaceTx]
        by_cases he : txId = txIdC
        · subst he
          rw [hf]
          simp only [hid1, transactionId_setNotifiedTrue, if_pos]
          by_cases hsel : (action == "end") = (actionC == "end")
          · rw [notifiedFlag_setNotifiedTrue_sel _ _ _ _ hsel]
            simp [hsel]
          · rw [notifiedFlag_setNotifiedTrue_other _ _ _ _ hsel]
            rw [notifiedFlag_setDeviceAction]
            have hb : ((action == "end") == (actionC == "end")) = false := by
              simpa using hsel
            simp [hb, DB.notified, hf]
        · have hne1 : ¬ (t.setDeviceAction devId actionC status now).transactionId = txId := by
            rw [hid1]; exact fun hh => he hh.symm
          have hne2 : ¬ ((t.setDeviceAction devId actionC status now).setNotifiedTrue actionC now).transactionId = txId := by
            rw [transactionId_setNotifiedTrue, hid1]; exact fun hh => he hh.symm
          have hb : (txId == txIdC) = false := by simp [he]
          cases hx : db.findTx txId with
          | none => simp [hx, hb, DB.notified]
          | some u => simp [hx, hne1, hne2, hb, DB.notified]
      · simp only [resultBool]
        rw [notified_replaceTx]
        by_cases he : txId = txIdC
        · subst he
          rw [hf]
          simp only [hid1, if_pos, notifiedFlag_setDeviceAction]
          simp [DB.notified, hf]
        · have hne1 : ¬ (t.setDeviceAction devId actionC status now).transactionId = txId := by
            rw [hid1]; exact fun hh => he hh.symm
          cases hx : db.findTx txId with
          | none => simp [hx, DB.notified]
          | some u => simp [hx, hne1, DB.notified]
      · simp only [resultBool]
        rw [notified_replaceTx]
        by_cases he : txId = txIdC
        · subst he
          rw [hf]
          simp only [hid1, if_pos, notifiedFlag_setDeviceAction]
          simp [DB.notified, hf]
        · have hne1 : ¬ (t.setDeviceAction devId actionC status now).transactionId = txId := by
            rw [hid1]; exact fun hh => he hh.symm
          cases hx : db.findTx txId with
          | none => simp [hx, DB.notified]
          | some u => simp [hx, hne1, DB.notified]



theorem mem_updateFirst {α : Type} (l : List α) (p : α → Bool) (f : α → α)
    (a : α) (h : l.find? p = some a) : f a ∈ updateFirst l p f := by
  induction l with
  | nil => simp at h
  | cons u us ih =>
    unfold updateFirst
    cases hu : p u with
    | true =>
        rw [List.find?_cons_of_pos _ hu] at h
        cases h
        simp [hu]
    | false =>
        rw [List.find?_cons_of_neg _ (by rw [hu]; simp)] at h
        simp [hu]
        exact Or.inr (ih h)

theorem find?_updateFirst {α : Type} (l : List α) (p : α → Bool) (f : α → α)
    (a : α) (h : l.find? p = some a) (hp : p (f a) = true) :
    (updateFirst l p f).find? p = some (f a) := by
  induction l with
  | nil => simp at h
  | cons u us ih =>
    unfold updateFirst
    cases hu : p u with
    | true =>
        rw [List.find?_cons_of_pos _ hu] at h
        cases h
        rw [if_pos rfl]
        rw [List.find?_cons_of_pos _ hp]
    | false =>
        rw [List.find?_cons_of_neg _ (by rw [hu]; simp)] at h
        rw [if_neg (by simp)]
        rw [List.find?_cons_of_neg _ (by simp [hu])]
        exact ih h

theorem update_ok_true_pre (db : DB) (txIdC devId actionC status : String)
    (now : Int)
    (h : resultBool (updateDeviceActionStatus db txIdC devId actionC status now).2 = true) :
    db.notified txIdC actionC = false := by
  cases hf : db.findTx txIdC with
  | none => simp [updateDeviceActionStatus, hf, resultBool] at h
  | some t =>
    cases hd : t.devices.find? (fun d => d.deviceId == devId) with
    | none => simp [updateDeviceActionStatus, hf, hd, resultBool] at h
    | some d =>
      simp only [updateDeviceActionStatus, hf, hd] at h
      split_ifs at h with h1 h2
      · simp only [DB.notified, hf]
        rw [← notifiedFlag_setDeviceAction t devId actionC status actionC now]
        exact h2
      · simp [resultBool] at h
      · simp [resultBool] at h

theorem update_ok_true_post (db : DB) (txIdC devId actionC status : String)
    (now : Int)
    (h : resultBool (updateDeviceActionStatus db txIdC devId actionC status now).2 = true) :
    ∃ t', (updateDeviceActionStatus db txIdC devId actionC status now).1.findTx txIdC = some t' ∧
      t'.notifiedFlag actionC = true ∧ 0 < t'.devices.length ∧
      ∀ d ∈ t'.devices, deviceTerminal d actionC = true := by
  cases hf : db.findTx txIdC with
  | none => simp [updateDeviceActionStatus, hf, resultBool] at h
  | some t =>
    cases hd : t.devices.find? (fun d => d.deviceId == devId) with
    | none => simp [updateDeviceActionStatus, hf, hd, resultBool] at h
    | some d =>
      simp only [updateDeviceActionStatus, hf, hd] at h ⊢
      split_ifs at h ⊢ with h1 h2
      · have hid : t.transactionId = txIdC := findTx_some_id _ _ _ hf
        have hid1 : (t.setDeviceAction devId actionC status now).transactionId = txIdC := by
          rw [transactionId_setDeviceAction, hid]
        have hid2 : ((t.setDeviceAction devId actionC status now).setNotifiedTrue actionC now).transactionId = txIdC := by
          rw [transactionId_setNotifiedTrue, hid1]
        refine ⟨(t.setDeviceAction devId actionC status now).setNotifiedTrue actionC now, ?_, ?_, ?_, ?_⟩
        · dsimp only
          rw [findTx_replaceTx, findTx_replaceTx, hf]
          simp [hid1, hid2]
        · exact notifiedFlag_setNotifiedTrue_sel _ _ _ _ rfl
        · rw [devices_setNotifiedTrue]
          exact h1.2
        · rw [devices_setNotifiedTrue]
          intro x hx
          have := List.countP_eq_length.mp h1.1
          exact this x hx
      · simp [resultBool] at h
      · simp [resultBool] at h

theorem countWins_zero_of_notified (db : DB) (calls : List UpdateCall)
    (txId action : String) (h : db.notified txId action = true) :
    countWins db calls txId action = 0 := by
  induction calls generalizing db with
  | nil => rfl
  | cons c cs ih =>
    unfold countWins
    have hmono : (updateDeviceActionStatus db c.txId c.devId c.action c.status c.now).1.notified txId action = true := by
      rw [notified_after_update db c.txId c.devId c.action c.status c.now txId action, h]
      simp
    have hz : (if c.txId == txId && c.action == action &&
        resultBool (updateDeviceActionStatus db c.txId c.devId c.action c.status c.now).2
        then 1 else 0) = 0 := by
      by_cases hca : (c.txId == txId && c.action == action &&
          resultBool (updateDeviceActionStatus db c.txId c.devId c.action c.status c.now).2) = true
      · exfalso
        have h123 := hca
        simp only [Bool.and_eq_true, beq_iff_eq] at h123
        have hpre := update_ok_true_pre db c.txId c.devId c.action c.status c.now h123.2
        rw [h123.1.1, h123.1.2] at hpre
        rw [h] at hpre
        exact Bool.true_eq_false.mp hpre
      · simp [hca]
    rw [hz, ih _ hmono]

theorem countWins_le_one (db : DB) (calls : List UpdateCall)
    (txId action : String) :
    countWins db calls txId action ≤ 1 := by
  induction calls generalizing db with
  | nil => simp [countWins]
  | cons c cs ih =>
    unfold countWins
    by_cases hca : (c.txId == txId && c.action == action &&
        resultBool (updateDeviceActionStatus db c.txId c.devId c.action c.status c.now).2) = true
    · have h123 := hca
      simp only [Bool.and_eq_true, beq_iff_eq] at h123
      have hpost : (updateDeviceActionStatus db c.txId c.devId c.action c.status c.now).1.notified txId action = true := by
        rw [notified_after_update db c.txId c.devId c.action c.status c.now txId action]
        rw [h123.2, h123.1.1, h123.1.2]
        simp
      rw [countWins_zero_of_notified _ cs txId action hpost]
      simp [hca]
    · have hb : (c.txId == txId && c.action == action &&
          resultBool (updateDeviceActionStatus db c.txId c.devId c.action c.status c.now).2) = false := by
        simpa using hca
      simp only [hb]
      have := ih (updateDeviceActionStatus db c.txId c.devId c.action c.status c.now).1
      simpa using this


theorem deviceId_setAction (d : TransactionDevice) (action : String)
    (st : DeviceActionStatus) :
    (d.setAction action st).deviceId = d.deviceId := by
  unfold TransactionDevice.setAction
  split <;> rfl

theorem setAction_read (d : TransactionDevice) (action : String)
    (st : DeviceActionStatus) :
    (if action == "end" then (d.setAction action st).endAction
     else (d.setAction action st).startAction) = some st := by
  unfold TransactionDevice.setAction
  cases h : (action == "end") <;> simp [h]

theorem transactions_storeDeviceOriginalState (db : DB) (devId : String)
    (st : DeviceOriginalState) (now : Int) :
    (storeDeviceOriginalState db devId st now).transactions = db.transactions := by
  unfold storeDeviceOriginalState
  split <;> rfl

theorem transactions_applyPhase (env : WorkerEnv) (db : DB) (devId action : String)
    (enabled : Bool) (now : Int) :
    (applyPhase env db devId action enabled now).1.transactions = db.transactions := by
  unfold applyPhase
  repeat' split
  all_goals simp [transactions_storeDeviceOriginalState]

theorem findTx_applyPhase (env : WorkerEnv) (db : DB) (devId action : String)
    (enabled : Bool) (now : Int) (txId : String) :
    (applyPhase env db devId action enabled now).1.findTx txId = db.findTx txId := by
  unfold DB.findTx
  rw [transactions_applyPhase]

theorem update_succeeds (db : DB) (txIdC devId actionC status : String)
    (now : Int) (t : Transaction) (d : TransactionDevice)
    (hf : db.findTx txIdC = some t)
    (hd : t.devices.find? (fun d => d.deviceId == devId) = some d) :
    ∃ b, (updateDeviceActionStatus db txIdC devId actionC status now).2 = .ok b := by
  simp only [updateDeviceActionStatus, hf, hd]
  split_ifs <;> exact ⟨_, rfl⟩

theorem deviceActionStatus_after_update (db : DB)
    (txIdC devId actionC status : String) (now : Int)
    (t : Transaction) (d : TransactionDevice)
    (hf : db.findTx txIdC = some t)
    (hd : t.devices.find? (fun d => d.deviceId == devId) = some d) :
    (updateDeviceActionStatus db txIdC devId actionC status now).1.deviceActionStatus
      txIdC devId actionC = some status := by
  have hid : t.transactionId = txIdC := findTx_some_id _ _ _ hf
  have hid1 : (t.setDeviceAction devId actionC status now).transactionId = txIdC := by
    rw [transactionId_setDeviceAction, hid]
  have hdid : ((fun d => d.deviceId == devId)
      (d.setAction actionC { status := status, timestamp := now })) = true := by
    have := List.find?_some hd
    simp only [deviceId_setAction]
    exact this
  have hfind : (t.setDeviceAction devId actionC status now).devices.find?
      (fun d => d.deviceId == devId) =
      some (d.setAction actionC { status := status, timestamp := now }) := by
    unfold Transaction.setDeviceAction
    exact find?_updateFirst _ _ _ _ hd hdid
  simp only [updateDeviceActionStatus, hf, hd]
  split_ifs with h1 h2
  · have hid2 : ((t.setDeviceAction devId actionC status now).setNotifiedTrue actionC now).transactionId = txIdC := by
      rw [transactionId_setNotifiedTrue, hid1]
    unfold DB.deviceActionStatus
    rw [findTx_replaceTx, findTx_replaceTx, hf]
    simp only [hid1, if_pos, hid2]
    rw [devices_setNotifiedTrue, hfind]
    dsimp only
    rw [setAction_read]
    rfl
  · unfold DB.deviceActionStatus
    rw [findTx_replaceTx, hf]
    simp only [hid1, if_pos]
    rw [hfind]
    dsimp only
    rw [setAction_read]
    rfl
  · unfold DB.deviceActionStatus
    rw [findTx_replaceTx, hf]
    simp only [hid1, if_pos]
    rw [hfind]
    dsimp only
    rw [setAction_read]
    rfl

theorem deviceActionStatus_markCompleted (db : DB) (txId2 : String) (now : Int)
    (txId devId action : String) :
    (markTransactionCompleted db txId2 now).deviceActionStatus txId devId action =
      db.deviceActionStatus txId devId action := by
  unfold markTransactionCompleted
  cases hx : db.findTx txId2 with
  | none => rfl
  | some u =>
    have hu : u.transactionId = txId2 := findTx_some_id _ _ _ hx
    unfold DB.deviceActionStatus
    rw [findTx_replaceTx]
    by_cases he : txId = txId2
    · subst he
      rw [hx]
      simp [hu]
    · have : ¬ ({ u with status := Status.completed, updatedAt := now } : Transaction).transactionId = txId := by
        simp only []
        rw [hu]
        exact fun hh => he hh.symm
      cases hy : db.findTx txId with
      | none => simp
      | some v => simp [this]

theorem deviceActionStatus_markIfDone (db : DB) (txId2 action2 : String)
    (now : Int) (txId devId action : String) :
    (markTransactionCompleteIfDone db txId2 action2 now).1.deviceActionStatus
      txId devId action = db.deviceActionStatus txId devId action := by
  unfold markTransactionCompleteIfDone
  cases hx : db.findTx txId2 with
  | none => rfl
  | some u =>
    dsimp only
    split
    · exact deviceActionStatus_markCompleted db txId2 now txId devId action
    · rfl


/-! ### Concrete fixtures used by the closed witnesses and counterexamples -/

/-- A device with a resolved network access identifier. -/
def devD1 : Device := { networkAccessIdentifier := some "d1", phoneNumber := none }

/-- A requested device whose `NetworkAccessIdentifier` is `nil`. -/
def devNoNai : Device := { networkAccessIdentifier := none, phoneNumber := some "+11111" }

/-- A subscription request with a configured sink. -/
def subCb : SubscriptionRequest := { sink := "http://cb" }

/-- The embedded device `d1` with its start action still pending. -/
def tdPending : TransactionDevice :=
  { deviceId := "d1", device := devD1,
    startAction := some { status := "pending", timestamp := 0 }, endAction := none }

/-- A fresh one-device pending transaction. -/
def txFix : Transaction :=
  { transactionId := "t1", startAt := 0, endAt := none, enabled := true,
    subscriptionRequest := subCb, status := .pending, createdAt := 0,
    updatedAt := 0, errorMessage := "", devices := [tdPending],
    startActionCompleted := false, endActionCompleted := false,
    startActionNotified := false, endActionNotified := false }

/-- Database holding just `txFix`. -/
def dbFix : DB := { transactions := [txFix], deviceConfigs := [] }

/-- Empty database. -/
def dbEmptyFix : DB := { transactions := [], deviceConfigs := [] }

/-- A worker environment whose NEF calls all succeed. -/
def envOkFix : WorkerEnv :=
  { nefGet := some { ppMaximumLatency := "100", ppMaximumResponseTime := "200" },
    storeOk := true, nefSetOk := true, psMaxLatency := "1", psMaxResponseTime := "1" }

/-- `txFix` already marked Completed but never claimed for start. -/
def txCompletedFix : Transaction := { txFix with status := .completed }

/-- Database holding just `txCompletedFix`. -/
def dbCompletedFix : DB := { transactions := [txCompletedFix], deviceConfigs := [] }

/-- `txFix` with the start action already claimed and completed. -/
def txClaimedFix : Transaction := { txFix with startActionCompleted := true }

/-- Database holding just `txClaimedFix`. -/
def dbClaimedFix : DB := { transactions := [txClaimedFix], deviceConfigs := [] }

/-- A fired start schedule action for `t1`. -/
def saFix : ScheduleAction :=
  { transactionId := "t1", action := "start", subscriptionRequest := subCb }

/-! ### Claim theorems -/

/-- C9: Submit's time validation (the time-validation block of
`ActivatePowerSaving`): when `endAt` is present it must be strictly after
`startAt` or the request is rejected with INVALID_ARGUMENT; when both
`startAt` and `endAt` are strictly in the past the request is rejected with
INVALID_ARGUMENT; when only `startAt` is in the past the request is accepted
and the armed start delay clamps to zero (fires immediately), and the same
holds with no time period at all (`startAt = now`). -/
theorem C9_time_validation (p : TimePeriod) (e now : Int) :
    (p.endDate = some e → ¬ p.startDate < e →
      validateTimePeriod (some p) now =
        .rejected "INVALID_ARGUMENT" "endDate must be after startDate") ∧
    (p.endDate = some e → p.startDate < e → p.startDate < now → e < now →
      validateTimePeriod (some p) now =
        .rejected "INVALID_ARGUMENT" "both startDate and endDate are in the past") ∧
    (p.endDate = some e → p.startDate < e → p.startDate < now → ¬ e < now →
      validateTimePeriod (some p) now = .accepted p.startDate (some e) ∧
        clampDelay (p.startDate - now) = 0) ∧
    (p.endDate = none → p.startDate < now →
      validateTimePeriod (some p) now = .accepted p.startDate none ∧
        clampDelay (p.startDate - now) = 0) ∧
    (validateTimePeriod none now = .accepted now none ∧
      clampDelay (now - now) = 0) := by
  refine ⟨?_, ?_, ?_, ?_, ?_, ?_⟩
  · intro he hlt
    simp [validateTimePeriod, he, hlt]
  · intro he hlt h1 h2
    simp [validateTimePeriod, he, hlt, h1, h2]
  · intro he hlt h1 h2
    constructor
    · simp [validateTimePeriod, he, hlt, h2]
    · unfold clampDelay
      rw [if_pos (by omega)]
  · intro he h1
    constructor
    · simp [validateTimePeriod, he]
    · unfold clampDelay
      rw [if_pos (by omega)]
  · simp [validateTimePeriod]
  · unfold clampDelay
    rw [if_neg (by omega)]
    omega

/-- C9 witness: the theorem applied at concrete instants. -/
theorem C9_time_validation_witness :
    (validateTimePeriod (some { startDate := 5, endDate := some 3 }) 10 =
        .rejected "INVALID_ARGUMENT" "endDate must be after startDate") ∧
    (validateTimePeriod (some { startDate := 1, endDate := some 2 }) 10 =
        .rejected "INVALID_ARGUMENT" "both startDate and endDate are in the past") ∧
    (validateTimePeriod (some { startDate := 1, endDate := some 20 }) 10 =
        .accepted 1 (some 20) ∧ clampDelay (1 - 10) = 0) ∧
    (validateTimePeriod (some { startDate := 1, endDate := none }) 10 =
        .accepted 1 none ∧ clampDelay (1 - 10) = 0) ∧
    (validateTimePeriod none 10 = .accepted 10 none ∧
      clampDelay (10 - 10) = 0) := by
  refine ⟨?_, ?_, ?_, ?_, ?_⟩
  · exact (C9_time_validation { startDate := 5, endDate := some 3 } 3 10).1
      rfl (by decide)
  · exact (C9_time_validation { startDate := 1, endDate := some 2 } 2 10).2.1
      rfl (by decide) (by decide) (by decide)
  · exact (C9_time_validation { startDate := 1, endDate := some 20 } 20 10).2.2.1
      rfl (by decide) (by decide) (by decide)
  · exact (C9_time_validation { startDate := 1, endDate := none } 0 10).2.2.2.1
      rfl (by decide)
  · exact (C9_time_validation { startDate := 0, endDate := none } 0 10).2.2.2.2

/-- C7: when the winner is the end-phase handler, or the start-phase handler
of a transaction with no `endAt`, `markTransactionCompleteIfDone` — which
loads the row and checks `(action=start ∧ endAt=null) ∨ action=end` — marks
the transaction Completed, and it does so for arbitrary embedded device
statuses (in particular when every device's action failed); the resulting
status is Completed, never Failed. -/
theorem C7_mark_completed (db : DB) (txId action : String) (now : Int)
    (t : Transaction) (hf : db.findTx txId = some t)
    (hc : (action = "start" ∧ t.endAt = none) ∨ action = "end") :
    (markTransactionCompleteIfDone db txId action now).1.findTx txId =
      some { t with status := .completed, updatedAt := now } ∧
    (markTransactionCompleteIfDone db txId action now).2 = .ok () ∧
    ({ t with status := .completed, updatedAt := now } : Transaction).status ≠
      Status.failed := by
  have hsc : ((action == "start" && t.endAt.isNone) || action == "end") = true := by
    rcases hc with ⟨h1, h2⟩ | h1
    · simp [h1, h2]
    · simp [h1]
  have hid : t.transactionId = txId := findTx_some_id _ _ _ hf
  refine ⟨?_, ?_, by simp⟩
  · unfold markTransactionCompleteIfDone
    rw [hf]
    dsimp only
    rw [if_pos hsc]
    unfold markTransactionCompleted
    rw [hf]
    dsimp only
    rw [findTx_replaceTx, hf]
    dsimp only
    rw [if_pos (show ({ t with status := Status.completed, updatedAt := now } :
      Transaction).transactionId = txId from hid)]
  · unfold markTransactionCompleteIfDone
    rw [hf]
    dsimp only
    rw [if_pos hsc]

/-- C7 witness: a one-device transaction whose only device failed its end
action is still marked Completed by the end-phase winner. -/
theorem C7_mark_completed_witness :
    (markTransactionCompleteIfDone
        { transactions := [{ txFix with
            endAt := some 9,
            devices := [{ tdPending with
              startAction := some { status := "failed", timestamp := 1 },
              endAction := some { status := "failed", timestamp := 2 } }] }],
          deviceConfigs := [] } "t1" "end" 3).1.findTx "t1" =
      some { { txFix with
            endAt := some 9,
            devices := [{ tdPending with
              startAction := some { status := "failed", timestamp := 1 },
              endAction := some { status := "failed", timestamp := 2 } }] } with
          status := .completed, updatedAt := 3 } ∧
    ({ { txFix with
            endAt := some 9,
            devices := [{ tdPending with
              startAction := some { status := "failed", timestamp := 1 },
              endAction := some { status := "failed", timestamp := 2 } }] } with
          status := Status.completed, updatedAt := 3 } : Transaction).status ≠
      Status.failed := by
  refine ⟨?_, ?_⟩
  · exact (C7_mark_completed
      { transactions := [{ txFix with
          endAt := some 9,
          devices := [{ tdPending with
            startAction := some { status := "failed", timestamp := 1 },
            endAction := some { status := "failed", timestamp := 2 } }] }],
        deviceConfigs := [] } "t1" "end" 3 _ (by decide) (Or.inr rfl)).1
  · exact (C7_mark_completed
      { transactions := [{ txFix with
          endAt := some 9,
          devices := [{ tdPending with
            startAction := some { status := "failed", timestamp := 1 },
            endAction := some { status := "failed", timestamp := 2 } }] }],
        deviceConfigs := [] } "t1" "end" 3 _ (by decide) (Or.inr rfl)).2.2


/-- Whether a `ClaimTransaction` result is an error. -/
def claimErred (r : Except String Bool) : Bool :=
  match r with
  | .ok _ => false
  | .error _ => true

theorem find?_claimFilter_of_id (l : List Transaction) (txId action : String)
    (t : Transaction)
    (hx : l.find? (fun t => t.transactionId == txId) = some t)
    (hc : claimFilter t txId action = true) :
    l.find? (fun t => claimFilter t txId action) = some t := by
  induction l with
  | nil => simp at hx
  | cons u us ih =>
    rw [List.find?_cons] at hx ⊢
    by_cases hu : (u.transactionId == txId) = true
    · rw [hu] at hx
      dsimp only at hx
      cases hx
      rw [hc]
    · have hub : (u.transactionId == txId) = false := by
        cases hy : (u.transactionId == txId) with
        | true => exact absurd hy hu
        | false => rfl
      have hcu : claimFilter u txId action = false := by
        unfold claimFilter
        rw [hub]
        simp
      rw [hub] at hx
      rw [hcu]
      dsimp only at hx ⊢
      exact ih hx

theorem claim_ok_of_filter (db : DB) (txId action : String) (now : Int)
    (t : Transaction) (hf : db.findTx txId = some t)
    (hc : claimFilter t txId action = true) :
    claimTransaction db txId action now =
      (db.replaceTx { t with updatedAt := now }, .ok true) := by
  have hx : db.transactions.find? (fun t => t.transactionId == txId) = some t := hf
  have hfind := find?_claimFilter_of_id db.transactions txId action t hx hc
  unfold claimTransaction
  rw [hfind]

/-- C2 counterexample: the source's `ClaimTransaction` has no status
condition and is not always a silent drop.  (1) A transaction whose status is
Completed but whose `startActionCompleted` flag is still false is claimed
(`ok true`), although the spec's claimed filter rejects it, so the fire is
not dropped.  (2) When the transaction row does not exist, `MatchedCount = 0`
yields an error — not a silent drop — and `fireSchedule` publishes a
`PowerSavingError` event. -/
theorem C2_counterexample :
    resultBool (claimTransaction
        { transactions := [{ txFix with status := .completed }],
          deviceConfigs := [] } "t1" "start" 5).2 = true ∧
    specClaimFilter { txFix with status := .completed } "t1" "start" = false ∧
    claimErred (claimTransaction dbEmptyFix "t1" "start" 0).2 = true ∧
    isOkU (fireSchedule dbEmptyFix
        { transactionId := "t1", action := "start",
          subscriptionRequest := subCb } 0).2.2 = false ∧
    (fireSchedule dbEmptyFix
        { transactionId := "t1", action := "start",
          subscriptionRequest := subCb } 0).2.1 =
      [Effect.sendError "t1-start-error" "t1" "start" "INTERNAL_ERROR"
        "Failed to claim transaction in database"] := by
  refine ⟨by decide, by decide, by decide, by decide, by decide⟩

/-- C2 amended: the Scheduler's atomic claim sets `updatedAt` under the
filter `_id = txId ∧ <action>ActionCompleted ≠ true` — with no condition on
`status` — and: (i) any transaction matching that filter is claimed
(`ok true`) whatever its status; (ii) when the filter matches nothing but the
transaction exists, the claim returns `false` without error and `fireSchedule`
silently drops, publishing nothing; (iii) when the transaction does not
exist, the claim returns an error and `fireSchedule` fails, publishing a
`PowerSavingError` notification. -/
theorem C2_amended (db : DB) (txId action : String) (now : Int)
    (sub : SubscriptionRequest) :
    (∀ t, db.findTx txId = some t → claimFilter t txId action = true →
      claimTransaction db txId action now =
        (db.replaceTx { t with updatedAt := now }, .ok true)) ∧
    (∀ t, db.wf → db.findTx txId = some t → claimFilter t txId action = false →
      claimTransaction db txId action now = (db, .ok false) ∧
      fireSchedule db ⟨txId, action, sub⟩ now = (db, [], .ok ())) ∧
    (db.findTx txId = none →
      claimErred (claimTransaction db txId action now).2 = true ∧
      isOkU (fireSchedule db ⟨txId, action, sub⟩ now).2.2 = false ∧
      (fireSchedule db ⟨txId, action, sub⟩ now).2.1 =
        sendErrorNotification txId action "INTERNAL_ERROR"
          "Failed to claim transaction in database" sub) := by
  refine ⟨?_, ?_, ?_⟩
  · intro t hf hc
    exact claim_ok_of_filter db txId action now t hf hc
  · intro t hwf hf hc
    have hfind : db.transactions.find? (fun t => claimFilter t txId action) = none := by
      rw [List.find?_eq_none]
      intro u hu
      intro hcu
      have huid : u.transactionId = txId := by
        have := hcu
        unfold claimFilter at this
        simp only [Bool.and_eq_true, beq_iff_eq] at this
        exact this.1
      have htid : t.transactionId = txId := findTx_some_id _ _ _ hf
      have hmem : t ∈ db.transactions := List.mem_of_find?_eq_some hf
      have : u = t := by
        apply List.inj_on_of_nodup_map hwf hu hmem
        rw [huid, htid]
      rw [this, hc] at hcu
      exact Bool.false_ne_true hcu
    have hclaim : claimTransaction db txId action now = (db, .ok false) := by
      unfold claimTransaction
      rw [hfind, hf]
    refine ⟨hclaim, ?_⟩
    unfold fireSchedule
    rw [hclaim]
  · intro hf
    have hfind : db.transactions.find? (fun t => claimFilter t txId action) = none := by
      rw [List.find?_eq_none]
      intro u hu hcu
      have huid : u.transactionId = txId := by
        unfold claimFilter at hcu
        simp only [Bool.and_eq_true, beq_iff_eq] at hcu
        exact hcu.1
      have : db.transactions.find? (fun t => t.transactionId == txId) ≠ none := by
        intro hn
        rw [List.find?_eq_none] at hn
        exact hn u hu (by simp [huid])
      exact this hf
    have hclaim : claimTransaction db txId action now =
        (db, .error ("transaction not found: " ++ txId)) := by
      unfold claimTransaction
      rw [hfind]
      dsimp only
      rw [hf]
    refine ⟨by rw [hclaim]; rfl, ?_, ?_⟩
    · unfold fireSchedule
      rw [hclaim]
      rfl
    · unfold fireSchedule
      rw [hclaim]

/-- C2 amended witness: the three amended branches at concrete databases,
including a Completed-status transaction that is still claimed. -/
theorem C2_amended_witness :
    (claimTransaction dbCompletedFix "t1" "start" 5 =
      (dbCompletedFix.replaceTx { txCompletedFix with updatedAt := 5 }, .ok true)) ∧
    (claimTransaction dbClaimedFix "t1" "start" 5 = (dbClaimedFix, .ok false) ∧
      fireSchedule dbClaimedFix saFix 5 = (dbClaimedFix, [], .ok ())) ∧
    (claimErred (claimTransaction dbEmptyFix "t1" "start" 0).2 = true ∧
      isOkU (fireSchedule dbEmptyFix saFix 0).2.2 = false ∧
      (fireSchedule dbEmptyFix saFix 0).2.1 =
        sendErrorNotification "t1" "start" "INTERNAL_ERROR"
          "Failed to claim transaction in database" subCb) := by
  refine ⟨?_, ?_, ?_⟩
  · exact (C2_amended dbCompletedFix "t1" "start" 5 subCb).1 txCompletedFix
      (by decide) (by decide)
  · exact (C2_amended dbClaimedFix "t1" "start" 5 subCb).2.1 txClaimedFix
      (by unfold DB.wf; decide) (by decide) (by decide)
  · exact (C2_amended dbEmptyFix "t1" "start" 0 subCb).2.2 (by decide)


/-- A second device with a resolved identifier. -/
def devD2 : Device := { networkAccessIdentifier := some "d2", phoneNumber := none }

/-- Embedded device `d2`, start action pending. -/
def tdPending2 : TransactionDevice :=
  { deviceId := "d2", device := devD2,
    startAction := some { status := "pending", timestamp := 0 }, endAction := none }

/-- A two-device pending transaction with `enabled = true`. -/
def tx2Fix : Transaction := { txFix with devices := [tdPending, tdPending2] }

/-- Database holding just `tx2Fix`. -/
def db2Fix : DB := { transactions := [tx2Fix], deviceConfigs := [] }

/-- C8: for every claimed fan-out, `fireSchedule` publishes exactly one
`DeviceActuationRequest` per embedded device, in list order, each with event
id `<transactionId>-<action>-device-<index>` where the index is the device's
position, and with the event's `enabled` equal to the transaction's `enabled`
for the start phase and its negation for the end phase. -/
theorem C8_fanout (db : DB) (a : ScheduleAction) (now : Int) (t : Transaction)
    (hf : db.findTx a.transactionId = some t)
    (hc : claimFilter t a.transactionId a.action = true) :
    (fireSchedule db a now).2.2 = .ok () ∧
    (fireSchedule db a now).2.1 =
      t.devices.enum.map (fun p =>
        Effect.sendActuation
          (a.transactionId ++ "-" ++ a.action ++ "-device-" ++ toString p.1)
          p.2.device (if a.action == "end" then !t.enabled else t.enabled)
          a.transactionId a.action) := by
  have hclaim := claim_ok_of_filter db a.transactionId a.action now t hf hc
  have hid : t.transactionId = a.transactionId := findTx_some_id _ _ _ hf
  have hfind2 : (db.replaceTx { t with updatedAt := now }).findTx a.transactionId =
      some { t with updatedAt := now } := by
    rw [findTx_replaceTx, hf]
    dsimp only
    rw [if_pos (show ({ t with updatedAt := now } : Transaction).transactionId =
      a.transactionId from hid)]
  unfold fireSchedule
  rw [hclaim]
  dsimp only
  rw [hfind2]
  exact ⟨rfl, rfl⟩

/-- C8 witness: an end-phase fan-out over a claimed two-device transaction
with `enabled = true` publishes the two expected events with `enabled =
false` and indexed event ids. -/
theorem C8_fanout_witness :
    (fireSchedule db2Fix ⟨"t1", "end", subCb⟩ 3).2.1 =
      [Effect.sendActuation "t1-end-device-0" devD1 false "t1" "end",
       Effect.sendActuation "t1-end-device-1" devD2 false "t1" "end"] := by
  have h := (C8_fanout db2Fix ⟨"t1", "end", subCb⟩ 3 tx2Fix
    (by decide) (by decide)).2
  rw [h]
  decide

/-- A concrete schedule request for transaction `t1`. -/
def sdFix : ScheduleRequestedData :=
  { startAt := 10, endAt := none, devices := [devD1], enabled := true,
    transactionId := "t1", subscriptionRequest := subCb }

/-- C5 counterexample: handling the same `ScheduleRequested` event twice does
not return success on the replay.  The first handling succeeds; the replay
hits the duplicate `_id` insert error, returns an error from the handler,
and publishes a `PowerSavingError` notification — contradicting "returns
success from the handler each time, and emits no PowerSavingError event for
the duplicate". -/
theorem C5_counterexample :
    isOkU (handleScheduleRequested dbEmptyFix sdFix 0).2.2 = true ∧
    isOkU (handleScheduleRequested
      (handleScheduleRequested dbEmptyFix sdFix 0).1 sdFix 1).2.2 = false ∧
    (handleScheduleRequested
      (handleScheduleRequested dbEmptyFix sdFix 0).1 sdFix 1).2.1 =
      [Effect.sendError "t1-start-error" "t1" "start" "INTERNAL_ERROR"
        "Failed to create transaction in database"] := by
  refine ⟨by decide, by decide, by decide⟩

/-- C5 amended: replaying a `ScheduleRequested` event whose `transactionId`
already has a row leaves the database unchanged (so exactly one row
survives), but the handler returns an error — it has no duplicate-key
special case — and emits a `PowerSavingError` notification (when a sink is
configured) instead of silently continuing. -/
theorem C5_amended (db : DB) (d : ScheduleRequestedData) (now : Int)
    (t : Transaction) (hf : db.findTx d.transactionId = some t) :
    (handleScheduleRequested db d now).1 = db ∧
    isOkU (handleScheduleRequested db d now).2.2 = false ∧
    (handleScheduleRequested db d now).2.1 =
      sendErrorNotification d.transactionId "start" "INTERNAL_ERROR"
        "Failed to create transaction in database" d.subscriptionRequest := by
  unfold handleScheduleRequested createTransaction
  dsimp only
  rw [hf]
  exact ⟨rfl, rfl, rfl⟩

/-- C5 amended witness: replaying `sdFix` against the database already
holding `t1` leaves it unchanged and fails. -/
theorem C5_amended_witness :
    (handleScheduleRequested dbFix sdFix 1).1 = dbFix ∧
    isOkU (handleScheduleRequested dbFix sdFix 1).2.2 = false := by
  have h := C5_amended dbFix sdFix 1 txFix (by decide)
  exact ⟨h.1, h.2.1⟩

theorem findTxL_append_some (l : List Transaction) (t : Transaction)
    (txId : String) (h : findTxL l txId = none) (ht : t.transactionId = txId) :
    findTxL (l ++ [t]) txId = some t := by
  unfold findTxL at *
  induction l with
  | nil =>
    rw [List.nil_append, List.find?_cons]
    rw [show (t.transactionId == txId) = true from by simp [ht]]
  | cons u us ih =>
    rw [List.find?_cons] at h
    rw [List.cons_append, List.find?_cons]
    cases hu : (u.transactionId == txId) with
    | true =>
      rw [hu] at h
      dsimp only at h
      cases h
    | false =>
      rw [hu] at h
      dsimp only at h ⊢
      exact ih h

/-- C10: for a transaction whose embedded devices list is empty,
`UpdateDeviceActionStatus` always returns `allCompleted = false` (here, the
positional filter matches no device, so the Go caller gets `false` with an
error; the completion check also requires `totalDevices > 0`), so
`processDevice` publishes nothing (no `AllDevicesCompleted`) and leaves the
database — in particular the transaction status — untouched.  Such empty
transactions can be created because `handleScheduleRequested` silently skips
every requested device whose `NetworkAccessIdentifier` is `nil` and still
inserts the row successfully. -/
theorem C10_empty_transaction :
    (∀ (devs : List Device) (now : Int),
      (∀ dev ∈ devs, dev.networkAccessIdentifier = none) →
      buildTransactionDevices devs now = []) ∧
    (∀ (db : DB) (d : ScheduleRequestedData) (now : Int),
      db.findTx d.transactionId = none →
      (∀ dev ∈ d.devices, dev.networkAccessIdentifier = none) →
      isOkU (handleScheduleRequested db d now).2.2 = true ∧
      ∃ t, (handleScheduleRequested db d now).1.findTx d.transactionId = some t ∧
        t.devices = []) ∧
    (∀ (db : DB) (txId devId action status : String) (now : Int)
      (t : Transaction), db.findTx txId = some t → t.devices = [] →
      resultBool (updateDeviceActionStatus db txId devId action status now).2 = false) ∧
    (∀ (env : WorkerEnv) (db : DB) (txId devId action : String) (enabled : Bool)
      (now : Int) (t : Transaction),
      db.findTx txId = some t → t.devices = [] →
      (processDevice env db txId devId action enabled now).effects = [] ∧
      (processDevice env db txId devId action enabled now).db = db) := by
  have hbuild : ∀ (devs : List Device) (now : Int),
      (∀ dev ∈ devs, dev.networkAccessIdentifier = none) →
      buildTransactionDevices devs now = [] := by
    intro devs now h
    induction devs with
    | nil => rfl
    | cons dev ds ih =>
      have hh : dev.networkAccessIdentifier = none := h dev (by simp)
      unfold buildTransactionDevices at ih ⊢
      rw [List.filterMap_cons, hh]
      exact ih (fun x hx => h x (by simp [hx]))
  have hupd : ∀ (db : DB) (txId devId action status : String) (now : Int)
      (t : Transaction), db.findTx txId = some t → t.devices = [] →
      updateDeviceActionStatus db txId devId action status now =
        (db, .error "mongo: no documents in result") := by
    intro db txId devId action status now t hf hdev
    unfold updateDeviceActionStatus
    rw [hf]
    dsimp only
    rw [hdev]
    rfl
  refine ⟨hbuild, ?_, ?_, ?_⟩
  · intro db d now hf hnone
    unfold handleScheduleRequested createTransaction
    dsimp only
    rw [hf]
    refine ⟨rfl, ?_⟩
    dsimp only
    refine ⟨⟨d.transactionId, d.startAt, d.endAt, d.enabled,
      d.subscriptionRequest, .pending, now, now, "",
      buildTransactionDevices d.devices now, false, false, false, false⟩, ?_, ?_⟩
    · exact findTxL_append_some db.transactions _ d.transactionId hf rfl
    · exact hbuild d.devices now hnone
  · intro db txId devId action status now t hf hdev
    rw [hupd db txId devId action status now t hf hdev]
    rfl
  · intro env db txId devId action enabled now t hf hdev
    unfold processDevice
    rw [hupd db txId devId action "in-progress" now t hf hdev]
    exact ⟨rfl, rfl⟩

/-- C10 witness: a request whose only device has no network access
identifier creates an empty-device transaction row, on which the status
update returns false and the worker publishes nothing. -/
theorem C10_empty_transaction_witness :
    buildTransactionDevices [devNoNai] 0 = [] ∧
    isOkU (handleScheduleRequested dbEmptyFix
      { sdFix with devices := [devNoNai] } 0).2.2 = true ∧
    resultBool (updateDeviceActionStatus
      { transactions := [{ txFix with devices := [] }], deviceConfigs := [] }
      "t1" "d1" "start" "success" 1).2 = false ∧
    (processDevice envOkFix
      { transactions := [{ txFix with devices := [] }], deviceConfigs := [] }
      "t1" "d1" "start" true 1).effects = [] := by
  refine ⟨?_, ?_, ?_, ?_⟩
  · exact C10_empty_transaction.1 [devNoNai] 0 (by decide)
  · exact (C10_empty_transaction.2.1 dbEmptyFix { sdFix with devices := [devNoNai] } 0
      (by decide) (by decide)).1
  · exact C10_empty_transaction.2.2.1
      { transactions := [{ txFix with devices := [] }], deviceConfigs := [] }
      "t1" "d1" "start" "success" 1 { txFix with devices := [] }
      (by decide) rfl
  · exact (C10_empty_transaction.2.2.2 envOkFix
      { transactions := [{ txFix with devices := [] }], deviceConfigs := [] }
      "t1" "d1" "start" true 1 { txFix with devices := [] }
      (by decide) rfl).1


theorem update_post_find (db : DB) (txIdC devId actionC status : String)
    (now : Int) (t : Transaction) (d : TransactionDevice)
    (hf : db.findTx txIdC = some t)
    (hd : t.devices.find? (fun d => d.deviceId == devId) = some d) :
    ∃ t', (updateDeviceActionStatus db txIdC devId actionC status now).1.findTx txIdC = some t' ∧
      t'.devices.find? (fun d => d.deviceId == devId) =
        some (d.setAction actionC { status := status, timestamp := now }) := by
  have hid : t.transactionId = txIdC := findTx_some_id _ _ _ hf
  have hid1 : (t.setDeviceAction devId actionC status now).transactionId = txIdC := by
    rw [transactionId_setDeviceAction, hid]
  have hdid : ((fun d => d.deviceId == devId)
      (d.setAction actionC { status := status, timestamp := now })) = true := by
    have := List.find?_some hd
    simp only [deviceId_setAction]
    exact this
  have hfind : (t.setDeviceAction devId actionC status now).devices.find?
      (fun d => d.deviceId == devId) =
      some (d.setAction actionC { status := status, timestamp := now }) := by
    unfold Transaction.setDeviceAction
    exact find?_updateFirst _ _ _ _ hd hdid
  simp only [updateDeviceActionStatus, hf, hd]
  split_ifs with h1 h2
  · have hid2 : ((t.setDeviceAction devId actionC status now).setNotifiedTrue actionC now).transactionId = txIdC := by
      rw [transactionId_setNotifiedTrue, hid1]
    refine ⟨(t.setDeviceAction devId actionC status now).setNotifiedTrue actionC now, ?_, ?_⟩
    · dsimp only
      rw [findTx_replaceTx, findTx_replaceTx, hf]
      simp [hid1, hid2]
    · rw [devices_setNotifiedTrue]
      exact hfind
  · refine ⟨t.setDeviceAction devId actionC status now, ?_, hfind⟩
    dsimp only
    rw [findTx_replaceTx, hf]
    simp [hid1]
  · refine ⟨t.setDeviceAction devId actionC status now, ?_, hfind⟩
    dsimp only
    rw [findTx_replaceTx, hf]
    simp [hid1]

theorem applyPhase_status_terminal (env : WorkerEnv) (db : DB)
    (devId action : String) (enabled : Bool) (now : Int) :
    isTerminal (applyPhase env db devId action enabled now).2.2 = true := by
  unfold applyPhase
  repeat' split
  all_goals simp [isTerminal]

/-- C6: the worker selects the device operation by the 2x2 table over
(action, enabled): (start, true) captures the current NEF config into the
original-state store and then applies the configured power-saving pair;
(start, false) and (end, true) apply the previously captured original state;
(end, false) applies the power-saving pair; and whenever the capture
(`GetDeviceConfig` or the original-state upsert) fails for (start, true),
the device action is recorded Failed and `SetDeviceConfig` is never
called. -/
theorem C6_worker_table (env : WorkerEnv) (db : DB) (devId : String)
    (now : Int) :
    (∀ cur, env.nefGet = some cur → env.storeOk = true →
      applyPhase env db devId "start" true now =
        (storeDeviceOriginalState db devId
            ⟨devId, cur.ppMaximumLatency, cur.ppMaximumResponseTime, 0⟩ now,
          [NefCall.getDeviceConfig devId, NefCall.setDeviceConfig devId env.psConfig],
          if env.nefSetOk then "success" else "failed")) ∧
    (∀ st, getDeviceOriginalState db devId = some st →
      applyPhase env db devId "start" false now =
        (db, [NefCall.setDeviceConfig devId
            ⟨st.ppMaximumLatency, st.ppMaximumResponseTime⟩],
          if env.nefSetOk then "success" else "failed")) ∧
    (∀ st, getDeviceOriginalState db devId = some st →
      applyPhase env db devId "end" true now =
        (db, [NefCall.setDeviceConfig devId
            ⟨st.ppMaximumLatency, st.ppMaximumResponseTime⟩],
          if env.nefSetOk then "success" else "failed")) ∧
    (applyPhase env db devId "end" false now =
      (db, [NefCall.setDeviceConfig devId env.psConfig],
        if env.nefSetOk then "success" else "failed")) ∧
    (∀ (txId : String) (t : Transaction) (d : TransactionDevice),
      env.nefGet = none ∨ env.storeOk = false →
      db.findTx txId = some t →
      t.devices.find? (fun d => d.deviceId == devId) = some d →
      (processDevice env db txId devId "start" true now).db.deviceActionStatus
        txId devId "start" = some "failed" ∧
      ∀ call ∈ (processDevice env db txId devId "start" true now).nefCalls,
        call.isSet = false) := by
  refine ⟨?_, ?_, ?_, ?_, ?_⟩
  · intro cur hg hs
    simp [applyPhase, hg, hs]
  · intro st hst
    simp [applyPhase, hst]
  · intro st hst
    simp [applyPhase, hst]
  · simp [applyPhase]
  · intro txId t d hcap hf hd
    obtain ⟨b1, hb1⟩ := update_succeeds db txId devId "start" "in-progress" now t d hf hd
    obtain ⟨t1, ht1, hd1⟩ := update_post_find db txId devId "start" "in-progress" now t d hf hd
    have hap : applyPhase env
        (updateDeviceActionStatus db txId devId "start" "in-progress" now).1
        devId "start" true now =
        ((updateDeviceActionStatus db txId devId "start" "in-progress" now).1,
          [NefCall.getDeviceConfig devId], "failed") := by
      rcases hcap with h | h
      · simp [applyPhase, h]
      · cases hg : env.nefGet with
        | none => simp [applyPhase, hg]
        | some cur => simp [applyPhase, hg, h]
    obtain ⟨b2, hb2⟩ := update_succeeds
      (updateDeviceActionStatus db txId devId "start" "in-progress" now).1
      txId devId "start" "failed" now t1 _ ht1 hd1
    have hstat := deviceActionStatus_after_update
      (updateDeviceActionStatus db txId devId "start" "in-progress" now).1
      txId devId "start" "failed" now t1 _ ht1 hd1
    unfold processDevice
    dsimp only
    rw [hb1]
    dsimp only
    rw [hap]
    dsimp only
    rw [hb2]
    dsimp only
    cases b2 with
    | true =>
      rw [if_pos rfl]
      constructor
      · rw [deviceActionStatus_markIfDone]
        exact hstat
      · intro call hcall
        simp at hcall
        rw [hcall]
        rfl
    | false =>
      rw [if_neg (by simp)]
      constructor
      · exact hstat
      · intro call hcall
        simp at hcall
        rw [hcall]
        rfl

/-- C6 witness: the four table branches and a capture failure at a concrete
database and environment. -/
theorem C6_worker_table_witness :
    applyPhase envOkFix dbFix "d1" "start" true 1 =
      (storeDeviceOriginalState dbFix "d1" ⟨"d1", "100", "200", 0⟩ 1,
        [NefCall.getDeviceConfig "d1",
         NefCall.setDeviceConfig "d1" envOkFix.psConfig],
        if envOkFix.nefSetOk then "success" else "failed") ∧
    applyPhase envOkFix
        { transactions := [txFix], deviceConfigs := [⟨"d1", "7", "8", 0⟩] }
        "d1" "start" false 1 =
      ({ transactions := [txFix], deviceConfigs := [⟨"d1", "7", "8", 0⟩] },
        [NefCall.setDeviceConfig "d1" ⟨"7", "8"⟩],
        if envOkFix.nefSetOk then "success" else "failed") ∧
    applyPhase envOkFix
        { transactions := [txFix], deviceConfigs := [⟨"d1", "7", "8", 0⟩] }
        "d1" "end" true 1 =
      ({ transactions := [txFix], deviceConfigs := [⟨"d1", "7", "8", 0⟩] },
        [NefCall.setDeviceConfig "d1" ⟨"7", "8"⟩],
        if envOkFix.nefSetOk then "success" else "failed") ∧
    applyPhase envOkFix dbFix "d1" "end" false 1 =
      (dbFix, [NefCall.setDeviceConfig "d1" envOkFix.psConfig],
        if envOkFix.nefSetOk then "success" else "failed") ∧
    (processDevice { envOkFix with nefGet := none } dbFix "t1" "d1" "start"
      true 1).db.deviceActionStatus "t1" "d1" "start" = some "failed" := by
  refine ⟨?_, ?_, ?_, ?_, ?_⟩
  · exact (C6_worker_table envOkFix dbFix "d1" 1).1 ⟨"100", "200"⟩ rfl rfl
  · exact (C6_worker_table envOkFix
      { transactions := [txFix], deviceConfigs := [⟨"d1", "7", "8", 0⟩] }
      "d1" 1).2.1 ⟨"d1", "7", "8", 0⟩ (by decide)
  · exact (C6_worker_table envOkFix
      { transactions := [txFix], deviceConfigs := [⟨"d1", "7", "8", 0⟩] }
      "d1" 1).2.2.1 ⟨"d1", "7", "8", 0⟩ (by decide)
  · exact (C6_worker_table envOkFix dbFix "d1" 1).2.2.2.1
  · exact ((C6_worker_table { envOkFix with nefGet := none } dbFix "d1" 1).2.2.2.2
      "t1" txFix tdPending (Or.inl rfl) (by decide) (by decide)).1


/-- C3 counterexample: the per-device action status does not only move
forward.  After a successful delivery, `d1`'s start status is the terminal
"success"; re-delivering the same `DeviceActuationRequest` makes the
handler's first store write — the unguarded positional update that
`processDevice` performs before actuating — move the status backwards from
"success" to "in-progress" (the re-delivery then re-completes it), so the
status changes after reaching a terminal state. -/
theorem C3_counterexample :
    (processDevice envOkFix dbFix "t1" "d1" "start" true 1).db.deviceActionStatus
      "t1" "d1" "start" = some "success" ∧
    isTerminal "success" = true ∧
    (updateDeviceActionStatus
      (processDevice envOkFix dbFix "t1" "d1" "start" true 1).db
      "t1" "d1" "start" "in-progress" 2).1.deviceActionStatus "t1" "d1" "start" =
      some "in-progress" ∧
    (processDevice envOkFix
      (processDevice envOkFix dbFix "t1" "d1" "start" true 1).db
      "t1" "d1" "start" true 2).db.deviceActionStatus "t1" "d1" "start" =
      some "success" := by
  refine ⟨by decide, by decide, by decide, by decide⟩

/-- C3 amended: within a single delivery the device's action status moves
forward — the handler first records "in-progress" and finally records a
terminal status ("success" or "failed").  The positional update is
unguarded, so the monotone transition discipline Pending → InProgress →
(Success | Failed) holds only under at-most-once delivery per (device,
phase); a re-delivered request resets a terminal status to "in-progress"
(see the counterexample). -/
theorem C3_amended (env : WorkerEnv) (db : DB) (txId devId action : String)
    (enabled : Bool) (now : Int) (t : Transaction) (d : TransactionDevice)
    (hf : db.findTx txId = some t)
    (hd : t.devices.find? (fun d => d.deviceId == devId) = some d) :
    (updateDeviceActionStatus db txId devId action "in-progress" now).1.deviceActionStatus
      txId devId action = some "in-progress" ∧
    ∃ s, (processDevice env db txId devId action enabled now).db.deviceActionStatus
        txId devId action = some s ∧ isTerminal s = true := by
  refine ⟨deviceActionStatus_after_update db txId devId action "in-progress" now t d hf hd, ?_⟩
  obtain ⟨b1, hb1⟩ := update_succeeds db txId devId action "in-progress" now t d hf hd
  obtain ⟨t1, ht1, hd1⟩ := update_post_find db txId devId action "in-progress" now t d hf hd
  have htr : (applyPhase env
      (updateDeviceActionStatus db txId devId action "in-progress" now).1
      devId action enabled now).1.findTx txId = some t1 := by
    rw [findTx_applyPhase]
    exact ht1
  obtain ⟨b2, hb2⟩ := update_succeeds
    (applyPhase env (updateDeviceActionStatus db txId devId action "in-progress" now).1
      devId action enabled now).1
    txId devId action
    (applyPhase env (updateDeviceActionStatus db txId devId action "in-progress" now).1
      devId action enabled now).2.2
    now t1 _ htr hd1
  have hstat := deviceActionStatus_after_update
    (applyPhase env (updateDeviceActionStatus db txId devId action "in-progress" now).1
      devId action enabled now).1
    txId devId action
    (applyPhase env (updateDeviceActionStatus db txId devId action "in-progress" now).1
      devId action enabled now).2.2
    now t1 _ htr hd1
  have hterm := applyPhase_status_terminal env
    (updateDeviceActionStatus db txId devId action "in-progress" now).1
    devId action enabled now
  refine ⟨(applyPhase env
      (updateDeviceActionStatus db txId devId action "in-progress" now).1
      devId action enabled now).2.2, ?_, hterm⟩
  unfold processDevice
  dsimp only
  rw [hb1]
  dsimp only
  rw [hb2]
  dsimp only
  cases b2 with
  | true =>
    rw [if_pos rfl]
    rw [deviceActionStatus_markIfDone]
    exact hstat
  | false =>
    rw [if_neg (by simp)]
    exact hstat

/-- C3 amended witness: the forward transitions of one delivery on the
concrete one-device database. -/
theorem C3_amended_witness :
    (updateDeviceActionStatus dbFix "t1" "d1" "start" "in-progress" 1).1.deviceActionStatus
      "t1" "d1" "start" = some "in-progress" ∧
    ∃ s, (processDevice envOkFix dbFix "t1" "d1" "start" true 1).db.deviceActionStatus
        "t1" "d1" "start" = some s ∧ isTerminal s = true :=
  C3_amended envOkFix dbFix "t1" "d1" "start" true 1 txFix tdPending
    (by decide) (by decide)


theorem findTx_markIfDone_devices (db : DB) (txId2 action2 : String)
    (now : Int) (txId : String) (t : Transaction)
    (h : db.findTx txId = some t) :
    ∃ t', (markTransactionCompleteIfDone db txId2 action2 now).1.findTx txId = some t' ∧
      t'.devices = t.devices := by
  unfold markTransactionCompleteIfDone
  cases hx : db.findTx txId2 with
  | none => exact ⟨t, h, rfl⟩
  | some u =>
    dsimp only
    split
    · unfold markTransactionCompleted
      rw [hx]
      dsimp only
      by_cases he : txId = txId2
      · subst he
        rw [h] at hx
        cases hx
        have hid := findTx_some_id _ _ _ h
        refine ⟨{ t with status := .completed, updatedAt := now }, ?_, rfl⟩
        rw [findTx_replaceTx, h]
        dsimp only
        rw [if_pos (show ({ t with status := Status.completed, updatedAt := now } :
          Transaction).transactionId = txId from hid)]
      · refine ⟨t, ?_, rfl⟩
        rw [findTx_replaceTx, h]
        dsimp only
        have hu : u.transactionId = txId2 := findTx_some_id _ _ _ hx
        rw [if_neg (show ¬ ({ u with status := Status.completed, updatedAt := now } :
          Transaction).transactionId = txId by
            intro hh
            exact he ((hu.symm.trans hh).symm))]
    · exact ⟨t, h, rfl⟩

theorem handleScheduleRequested_effects (db : DB) (d : ScheduleRequestedData)
    (now : Int) :
    (handleScheduleRequested db d now).2.1 =
      sendErrorNotification d.transactionId "start" "INTERNAL_ERROR"
        "Failed to create transaction in database" d.subscriptionRequest ∨
    (handleScheduleRequested db d now).2.1 =
      [Effect.armTimer (d.transactionId ++ "-start") d.transactionId "start"
        (clampDelay (d.startAt - now))] := by
  unfold handleScheduleRequested
  dsimp only
  split
  · exact Or.inl rfl
  · exact Or.inr rfl

/-- C4: the end timer is never armed before the start phase completed.
(1) `handleScheduleRequested` arms only a start timer.
(2) `handleAllDevicesCompleted` arms a timer only for a start-phase
completion event of a transaction with non-null `endAt`, and that timer is
the end timer with the delay until `endAt` clamped to zero.
(3) Startup recovery (`loadPendingSchedules`) arms an end timer only for a
pending transaction with `endAt ≠ null ∧ startActionCompleted = true ∧
endActionCompleted = false`, delay clamped to zero.
(4) The worker publishes `AllDevicesCompleted` only when its final
`UpdateDeviceActionStatus` won the election, in which case every device of
the (non-empty) transaction is terminal for that phase — so the
start-completion events that gate (2) exist only once the start phase has
completed. -/
theorem C4_end_timer_gating :
    (∀ (db : DB) (d : ScheduleRequestedData) (now : Int)
      (k tid act : String) (del : Int),
      Effect.armTimer k tid act del ∈ (handleScheduleRequested db d now).2.1 →
      act = "start") ∧
    (∀ (db : DB) (d : AllDevicesCompletedData) (now : Int)
      (k tid act : String) (del : Int),
      Effect.armTimer k tid act del ∈ (handleAllDevicesCompleted db d now).2.1 →
      d.action = "start" ∧ act = "end" ∧
      ∃ t e, db.findTx d.transactionId = some t ∧ t.endAt = some e ∧
        del = clampDelay (e - now)) ∧
    (∀ (db : DB) (now : Int) (k tid : String) (del : Int),
      Effect.armTimer k tid "end" del ∈ loadPendingSchedules db now →
      ∃ t, t ∈ db.transactions ∧
        (t.status == Status.pending || t.status == Status.processing) = true ∧
        tid = t.transactionId ∧ t.startActionCompleted = true ∧
        t.endActionCompleted = false ∧
        ∃ e, t.endAt = some e ∧ del = clampDelay (e - now)) ∧
    (∀ (env : WorkerEnv) (db : DB) (txId devId action : String)
      (enabled : Bool) (now : Int) (i tid act : String) (ca : Int),
      Effect.sendAllCompleted i tid act ca ∈
        (processDevice env db txId devId action enabled now).effects →
      ∃ t', (processDevice env db txId devId action enabled now).db.findTx txId =
          some t' ∧ 0 < t'.devices.length ∧
        ∀ dv ∈ t'.devices, deviceTerminal dv action = true) := by
  refine ⟨?_, ?_, ?_, ?_⟩
  · intro db d now k tid act del hmem
    rcases handleScheduleRequested_effects db d now with h | h
    · rw [h] at hmem
      unfold sendErrorNotification at hmem
      split at hmem
      · simp at hmem
      · simp at hmem
    · rw [h] at hmem
      simp at hmem
      exact hmem.2.2.1
  · intro db d now k tid act del hmem
    unfold handleAllDevicesCompleted at hmem
    by_cases ha : (d.action == "start") = true
    · rw [if_pos ha] at hmem
      cases hft : db.findTx d.transactionId with
      | none => rw [hft] at hmem; simp at hmem
      | some t =>
        rw [hft] at hmem
        dsimp only at hmem
        cases hend : t.endAt with
        | none => rw [hend] at hmem; simp at hmem
        | some e =>
          rw [hend] at hmem
          dsimp only at hmem
          simp only [List.mem_singleton, Effect.armTimer.injEq] at hmem
          refine ⟨by simpa using ha, hmem.2.2.1, t, e, rfl, hend, hmem.2.2.2⟩
    · rw [if_neg ha] at hmem
      simp at hmem
  · intro db now k tid del hmem
    unfold loadPendingSchedules at hmem
    rw [List.mem_flatMap] at hmem
    obtain ⟨t, hpt, hmem⟩ := hmem
    have hptm : t ∈ db.transactions ∧
        (t.status == Status.pending || t.status == Status.processing) = true := by
      unfold pendingTransactions at hpt
      exact List.mem_filter.mp hpt
    unfold armForTransaction at hmem
    rw [List.mem_append] at hmem
    rcases hmem with h | h
    · by_cases hs : (!t.startActionCompleted) = true
      · rw [if_pos hs] at h
        simp at h
      · rw [if_neg hs] at h
        simp at h
    · cases hend : t.endAt with
      | none => rw [hend] at h; simp at h
      | some e =>
        rw [hend] at h
        dsimp only at h
        by_cases hc : (t.startActionCompleted && !t.endActionCompleted) = true
        · rw [if_pos hc] at h
          simp only [List.mem_singleton, Effect.armTimer.injEq] at h
          have hc1 : t.startActionCompleted = true := by
            cases hx : t.startActionCompleted
            · rw [hx] at hc; simp at hc
            · rfl
          have hc2 : t.endActionCompleted = false := by
            cases hx : t.endActionCompleted
            · rfl
            · rw [hx] at hc; simp at hc
          exact ⟨t, hptm.1, hptm.2, h.2.1, hc1, hc2, e, hend, h.2.2.2⟩
        · rw [if_neg hc] at h
          simp at h
  · intro env db txId devId action enabled now i tid act ca hmem
    unfold processDevice at hmem ⊢
    dsimp only at hmem ⊢
    cases hb1 : (updateDeviceActionStatus db txId devId action "in-progress" now).2 with
    | error e1 =>
      rw [hb1] at hmem
      simp at hmem
    | ok b1 =>
      rw [hb1] at hmem
      dsimp only at hmem
      try rw [hb1]
      try dsimp only
      cases hb2 : (updateDeviceActionStatus
          (applyPhase env (updateDeviceActionStatus db txId devId action "in-progress" now).1
            devId action enabled now).1
          txId devId action
          (applyPhase env (updateDeviceActionStatus db txId devId action "in-progress" now).1
            devId action enabled now).2.2 now).2 with
      | error e2 =>
        rw [hb2] at hmem
        simp at hmem
      | ok b2 =>
        rw [hb2] at hmem
        dsimp only at hmem
        try rw [hb2]
        try dsimp only
        cases b2 with
        | false =>
          rw [if_neg (by simp)] at hmem
          simp at hmem
        | true =>
          rw [if_pos rfl] at hmem
          try rw [if_pos rfl]
          have hpost := update_ok_true_post
            (applyPhase env (updateDeviceActionStatus db txId devId action "in-progress" now).1
              devId action enabled now).1
            txId devId action
            (applyPhase env (updateDeviceActionStatus db txId devId action "in-progress" now).1
              devId action enabled now).2.2 now
            (by rw [hb2]; rfl)
          obtain ⟨t', ht', hflag, hlen, hterm⟩ := hpost
          obtain ⟨t2, ht2, hdev⟩ := findTx_markIfDone_devices _ txId action now txId t' ht'
          refine ⟨t2, ht2, ?_, ?_⟩
          · rw [hdev]
            exact hlen
          · rw [hdev]
            exact hterm

/-- Transaction `t1` with an end instant scheduled at 9. -/
def txEnd9Fix : Transaction := { txFix with endAt := some 9 }

/-- Database holding just `txEnd9Fix`. -/
def dbEnd9Fix : DB := { transactions := [txEnd9Fix], deviceConfigs := [] }

/-- A recovered transaction: start completed, end still due at 9. -/
def txRecFix : Transaction :=
  { txFix with endAt := some 9, startActionCompleted := true }

/-- Database holding just `txRecFix`. -/
def dbRecFix : DB := { transactions := [txRecFix], deviceConfigs := [] }

/-- A start-phase `AllDevicesCompleted` event for `t1`. -/
def adcFix : AllDevicesCompletedData :=
  { transactionId := "t1", action := "start", completedAt := 2,
    subscriptionRequest := subCb }

/-- C4 witness: the gating facts applied at a concrete scheduler state: the
schedule handler arms the start timer, the start-completion handler arms the
end timer, recovery arms an end timer for a recovered half-done transaction,
and the worker's completion event implies termination of every device. -/
theorem C4_end_timer_gating_witness :
    ("start" : String) = "start" ∧
    (adcFix.action = "start" ∧ ("end" : String) = "end" ∧
      ∃ t e, dbEnd9Fix.findTx "t1" = some t ∧ t.endAt = some e ∧
        (6 : Int) = clampDelay (e - 3)) ∧
    (∃ t, t ∈ dbRecFix.transactions ∧
      (t.status == Status.pending || t.status == Status.processing) = true ∧
      ("t1" : String) = t.transactionId ∧ t.startActionCompleted = true ∧
      t.endActionCompleted = false ∧
      ∃ e, t.endAt = some e ∧ (6 : Int) = clampDelay (e - 3)) ∧
    (∃ t', (processDevice envOkFix dbFix "t1" "d1" "start" true 1).db.findTx "t1" =
        some t' ∧ 0 < t'.devices.length ∧
      ∀ dv ∈ t'.devices, deviceTerminal dv "start" = true) := by
  refine ⟨?_, ?_, ?_, ?_⟩
  · exact C4_end_timer_gating.1 dbEmptyFix sdFix 0 "t1-start" "t1" "start" 10
      (by decide)
  · exact C4_end_timer_gating.2.1 dbEnd9Fix adcFix 3 "t1-end" "t1" "end" 6
      (by decide)
  · exact C4_end_timer_gating.2.2.1 dbRecFix 3 "t1-end" "t1" 6 (by decide)
  · exact C4_end_timer_gating.2.2.2 envOkFix dbFix "t1" "d1" "start" true 1
      "t1-start-all-completed" "t1" "start" 1 (by decide)


/-- Two racing terminal status updates for device `d1` of `t1`. -/
def callsFix : List UpdateCall :=
  [{ txId := "t1", devId := "d1", action := "start", status := "success", now := 1 },
   { txId := "t1", devId := "d1", action := "start", status := "success", now := 2 }]

/-- `t1` whose start phase has already been notified. -/
def dbNotifiedFix : DB :=
  { transactions := [{ txFix with startActionNotified := true }],
    deviceConfigs := [] }

/-- C1: at most one `AllDevicesCompleted` per (transaction, phase).  When
`UpdateDeviceActionStatus` returns `allCompleted = true`, the phase's
notified flag was false before the call — the election `UpdateOne` with
filter `(transactionId, <action>ActionNotified = false)` matched with
`MatchedCount = 1` — and is true afterwards, with every device of the
non-empty transaction terminal for that phase.  Across any sequence of
`UpdateDeviceActionStatus` calls (the only operation that touches the flag,
and itself an atomic test-then-set) at most one call returns
`allCompleted = true` for a given (transaction, action), and once the flag
is true no later call ever returns `allCompleted = true`; the worker emits
the event exactly when its call returns true. -/
theorem C1_at_most_once_notification (db : DB) (calls : List UpdateCall)
    (txId devId action status : String) (now : Int) :
    (resultBool (updateDeviceActionStatus db txId devId action status now).2 = true →
      db.notified txId action = false ∧
      ∃ t', (updateDeviceActionStatus db txId devId action status now).1.findTx txId =
          some t' ∧ t'.notifiedFlag action = true ∧ 0 < t'.devices.length ∧
        ∀ d ∈ t'.devices, deviceTerminal d action = true) ∧
    countWins db calls txId action ≤ 1 ∧
    (db.notified txId action = true → countWins db calls txId action = 0) := by
  refine ⟨?_, countWins_le_one db calls txId action, ?_⟩
  · intro h
    exact ⟨update_ok_true_pre db txId devId action status now h,
      update_ok_true_post db txId devId action status now h⟩
  · intro h
    exact countWins_zero_of_notified db calls txId action h

/-- C1 witness: on the concrete one-device database, the successful terminal
update wins the election exactly once; two racing calls yield at most one
win, and a pre-notified transaction yields none. -/
theorem C1_at_most_once_notification_witness :
    (dbFix.notified "t1" "start" = false ∧
      ∃ t', (updateDeviceActionStatus dbFix "t1" "d1" "start" "success" 1).1.findTx "t1" =
          some t' ∧ t'.notifiedFlag "start" = true ∧ 0 < t'.devices.length ∧
        ∀ d ∈ t'.devices, deviceTerminal d "start" = true) ∧
    countWins dbFix callsFix "t1" "start" ≤ 1 ∧
    countWins dbNotifiedFix callsFix "t1" "start" = 0 := by
  refine ⟨?_, ?_, ?_⟩
  · exact (C1_at_most_once_notification dbFix callsFix "t1" "d1" "start"
      "success" 1).1 (by decide)
  · exact (C1_at_most_once_notification dbFix callsFix "t1" "d1" "start"
      "success" 1).2.1
  · exact (C1_at_most_once_notification dbNotifiedFix callsFix "t1" "d1"
      "start" "success" 1).2.2 (by decide)

end IoTNetOpt
